import Mathlib

/-!
Verification of the tablo feature-service core (`tablo/models.py`, `tablo/wkt.py`)
against its natural-language specification.

The Python source is shallowly embedded below.  Machine reals are modelled as
exact fractions (`Rq`), strings as Lean `String`s, database cursors as explicit
data, and raising an exception as returning `Except.error` / `Option.none`.
Each embedded definition carries the name of the Python function it translates.
-/

set_option maxRecDepth 100000

namespace Tablo

/-! ### String helpers

Executable models of the Python string operations used by the source
(`str.replace`, `str.strip`, `str.split`, `str.lower`, ...).  They are written
over `List Char` with structural recursion so that the kernel can evaluate
them. -/

/-- Python `s.replace(c, '')`: remove every occurrence of a character. -/
def removeChar (c : Char) (s : String) : String :=
  ⟨s.data.filter (fun x => x ≠ c)⟩

/-- Python `s.replace('%', '%%')`: double every percent sign. -/
def doublePercent (s : String) : String :=
  ⟨s.data.flatMap (fun x => if x = '%' then ['%', '%'] else [x])⟩

/-- Membership of a character in a string (Python `c in s`). -/
def containsChar (c : Char) (s : String) : Bool :=
  s.data.any (fun x => x = c)

/-- Python `s.strip()`: drop whitespace from both ends. -/
def trimStr (s : String) : String :=
  ⟨((s.data.dropWhile Char.isWhitespace).reverse.dropWhile Char.isWhitespace).reverse⟩

/-- Python `s.strip('"')`: drop double quotes from both ends. -/
def stripQuoteEnds (s : String) : String :=
  ⟨((s.data.dropWhile (fun c => c = '"')).reverse.dropWhile (fun c => c = '"')).reverse⟩

/-- Python `s.lower()`. -/
def lowerStr (s : String) : String :=
  ⟨s.data.map Char.toLower⟩

/-- Python `s.upper()`. -/
def upperStr (s : String) : String :=
  ⟨s.data.map Char.toUpper⟩

/-- Split a character list at a separator character; every chunk excludes the
separator.  Python `s.split(sep)` semantics: `''.split('.') = ['']`. -/
def splitCharList (sep : Char) : List Char → List (List Char)
  | [] => [[]]
  | c :: rest =>
    match splitCharList sep rest with
    | [] => [[c]]
    | h :: t => if c = sep then [] :: h :: t else (c :: h) :: t

/-- Python `s.split(sep)` for a single-character separator. -/
def splitStr (sep : Char) (s : String) : List String :=
  (splitCharList sep s.data).map (fun l => ⟨l⟩)

/-- Python prefix test `s.startswith(p)`. -/
def hasPref (p s : String) : Bool :=
  decide (p.data <+: s.data)

/-- Python suffix test `s.endswith(p)`. -/
def hasSuff (p s : String) : Bool :=
  decide (p.data <:+ s.data)

/-- Python `s[:-1]`: drop the last character. -/
def dropLastChar (s : String) : String :=
  ⟨s.data.dropLast⟩

/-- First-occurrence de-duplication, mirroring Python `set` / Django
`OrderedSet` membership semantics where iteration order matters. -/
def dedupKeep (seen : List String) : List String → List String
  | [] => []
  | x :: xs => if seen.contains x then dedupKeep seen xs else x :: dedupKeep (x :: seen) xs

/-- De-duplicate a list of strings keeping first occurrences (Django `OrderedSet`). -/
def dedupList (l : List String) : List String :=
  dedupKeep [] l

/-- Replace every occurrence of the text `"*"` (a quoted star) by `*`,
modelling `quoted_fields.replace('"*"', '*')` in `_alias_fields`. -/
def replaceQuotedStar : List Char → List Char
  | '"' :: '*' :: '"' :: rest => '*' :: replaceQuotedStar rest
  | c :: rest => c :: replaceQuotedStar rest
  | [] => []

/-- String-level wrapper for `replaceQuotedStar`. -/
def replaceStarStr (s : String) : String :=
  ⟨replaceQuotedStar s.data⟩

/-! ### Model of the `sqlparse` dependency

`_parse_where_clause` and `_build_where_clause` rely on the third-party
`sqlparse` tokenizer, whose code is not part of this repository.  The
fragment of its behaviour that the source depends on is modelled here, per the
spec (§4.3): statements are split at top-level semicolons (a semicolon inside
a single-quoted SQL string literal does not split), `Token.Name` tokens are
bare identifiers or dotted identifier chains (SQL keywords, literals, numbers
and operators are not names), and the `parent.value` of a name token inside a
dotted chain is the full dotted text. -/

/-- One token of the modelled SQL token stream (`sqlparse` flattened tokens,
grouped so that a dotted identifier chain is one entry). -/
inductive SqlTok
  /-- An identifier chain `a.b.c` (ttype `Token.Name`); a single segment is a
  bare identifier. -/
  | name (segs : List String)
  /-- A recognised SQL keyword, emitted verbatim. -/
  | kw (s : String)
  /-- A single-quoted string literal, quotes included. -/
  | lit (s : String)
  /-- A numeric literal. -/
  | num (s : String)
  /-- Any other character (operator, punctuation, whitespace), verbatim. -/
  | sym (s : String)
deriving DecidableEq

/-- Keywords recognised by the modelled tokenizer (classified `Keyword`, not
`Name`, by sqlparse). -/
def sqlKeywords : List String :=
  ["WHERE", "AND", "OR", "NOT", "IN", "IS", "NULL", "LIKE", "BETWEEN",
   "SELECT", "FROM", "DROP", "TABLE", "INSERT", "UPDATE", "DELETE", "INTO",
   "VALUES", "TRUE", "FALSE", "ASC", "DESC", "CASE", "WHEN", "THEN", "ELSE",
   "END", "EXISTS", "ON", "JOIN", "UNION", "ORDER", "BY", "GROUP", "HAVING",
   "LIMIT", "OFFSET"]

/-- The single-quote character that delimits SQL string literals. -/
def squote : Char := Char.ofNat 39

/-- Characters that may appear in an identifier token (`sqlparse` names may be
double-quoted, so the quote character is part of the token text). -/
def identChar (c : Char) : Bool :=
  c.isAlphanum || c = '_' || c = '"'

/-- Take the longest identifier-character run from the front. -/
def takeIdent (cs : List Char) : List Char × List Char :=
  (cs.takeWhile identChar, cs.dropWhile identChar)

/-- Read a dotted identifier chain `seg(.seg)*` from the front of the input,
returning the segments and the rest.  `fuel` bounds recursion depth. -/
def readChain (fuel : Nat) (cs : List Char) : List String × List Char :=
  match fuel with
  | 0 => ([], cs)
  | fuel + 1 =>
    let (seg, rest) := takeIdent cs
    match rest with
    | '.' :: c :: rest' =>
      if identChar c then
        let (segs, rest'') := readChain fuel (c :: rest')
        (String.mk seg :: segs, rest'')
      else (⟨seg⟩ :: [], rest)
    | _ => (⟨seg⟩ :: [], rest)

/-- Take a single-quoted SQL string literal body (after the opening quote),
returning the consumed text including the closing quote, and the rest. -/
def takeLit : List Char → List Char × List Char
  | [] => ([], [])
  | c :: rest =>
    if c = squote then ([c], rest)
    else
      let (body, rest') := takeLit rest
      (c :: body, rest')

/-- The modelled `sqlparse` tokenizer over a statement's text. -/
def sqlTokenizeAux (fuel : Nat) (cs : List Char) : List SqlTok :=
  match fuel, cs with
  | 0, _ => []
  | _, [] => []
  | fuel + 1, c :: rest =>
    if c = squote then
      let (body, rest') := takeLit rest
      .lit ⟨squote :: body⟩ :: sqlTokenizeAux fuel rest'
    else if c.isDigit then
      let ds := rest.takeWhile (fun d => d.isDigit || d = '.')
      .num ⟨c :: ds⟩ :: sqlTokenizeAux fuel (rest.dropWhile (fun d => d.isDigit || d = '.'))
    else if identChar c && !c.isDigit then
      let (segs, rest') := readChain (cs.length) cs
      match segs with
      | [seg] =>
        if sqlKeywords.contains (upperStr seg) then .kw seg :: sqlTokenizeAux fuel rest'
        else .name [seg] :: sqlTokenizeAux fuel rest'
      | _ => .name segs :: sqlTokenizeAux fuel rest'
    else
      .sym ⟨[c]⟩ :: sqlTokenizeAux fuel rest

/-- Tokenize one SQL statement (model of `sqlparse.parse(...)[i].flatten()`). -/
def sqlTokenize (s : String) : List SqlTok :=
  sqlTokenizeAux (s.data.length + 1) s.data

/-- Split raw SQL text into statements at top-level semicolons; each statement
keeps its trailing semicolon (model of `sqlparse.parse` statement splitting). -/
def splitStmts : List Char → Bool → List Char → List (List Char)
  | [], _, acc => [acc.reverse]
  | c :: rest, true, acc => splitStmts rest (c ≠ squote) (c :: acc)
  | c :: rest, false, acc =>
    if c = squote then splitStmts rest true (c :: acc)
    else if c = ';' then (c :: acc).reverse :: splitStmts rest false []
    else splitStmts rest false (c :: acc)

/-- The list of top-level statements of a SQL text; a trailing empty chunk
(after a final semicolon at end of input) is not a statement. -/
def sqlStatements (s : String) : List String :=
  let raw := splitStmts s.data false []
  let raw := if raw.getLast? = some [] then raw.dropLast else raw
  raw.map (fun l => ⟨l⟩)

/-- The referenced field names of a token stream: for every `Token.Name` token
the source collects `t.parent.value.replace('"', '')`, i.e. the full dotted
chain with quoting removed (`_parse_where_clause`). -/
def tokenFieldNames (toks : List SqlTok) : List String :=
  dedupList (toks.flatMap (fun t =>
    match t with
    | .name segs => [removeChar '"' (String.intercalate "." segs)]
    | _ => []))

/-- Re-emission of a token stream performed by `_build_where_clause`: name
tokens that are part of a dotted chain are re-quoted segment by segment, bare
names gain the `"source".` alias, everything else is written verbatim. -/
def emitWhereTokens (toks : List SqlTok) : String :=
  toks.foldl (fun acc t =>
    acc ++ match t with
    | .name [seg] => "\"source\".\"" ++ stripQuoteEnds seg ++ "\""
    | .name segs => String.intercalate "." (segs.map (fun s => "\"" ++ stripQuoteEnds s ++ "\""))
    | .kw s => s
    | .lit s => s
    | .num s => s
    | .sym s => s) ""

/-! ### Data model (`FeatureServiceLayer`, `FeatureServiceLayerRelations`)

Constants from `tablo/__init__.py`: `PRIMARY_KEY_NAME = 'db_id'`,
`GEOM_FIELD_NAME = 'dbasin_geom'`, `WEB_MERCATOR_SRID = 3857`. -/

/-- The layer's primary-key column name (`PRIMARY_KEY_NAME`). -/
def PRIMARY_KEY_NAME : String := "db_id"

/-- The reserved geometry column name (`GEOM_FIELD_NAME`). -/
def GEOM_FIELD_NAME : String := "dbasin_geom"

/-- Web-Mercator SRID (`WEB_MERCATOR_SRID`). -/
def WEB_MERCATOR_SRID : Int := 3857

/-- One entry of a layer's field catalog, as produced by `get_fields` (the
dict `{name, alias, type, nullable, editable}`). -/
structure FieldInfo where
  name : String
  falias : String
  ftype : String
  nullable : Bool
deriving DecidableEq

/-- One row of `FeatureServiceLayerRelations` as used by the query compiler. -/
structure LayerRelation where
  related_index : Nat
  related_title : String
  source_column : String
  target_column : String
deriving DecidableEq

/-- A `FeatureServiceLayer` as seen by `perform_query`: its table name, the
object-id field, the memoized `fields` catalog (from live introspection of the
table), its relations, the keys of the memoized `related_fields` ordered dict
(qualified `relatedTitle.fieldName`, in relation / column order), and the
optional time field. -/
structure Layer where
  table : String
  object_id_field : String
  fields : List FieldInfo
  relations : List LayerRelation
  related_field_keys : List String
  start_time_field : Option String
deriving DecidableEq

/-- The physical table of a relation (`FeatureServiceLayerRelations.table`):
`'{table}_{index}'.format(table=self.layer.table, index=self.related_index)`. -/
def relationTable (layer : Layer) (r : LayerRelation) : String :=
  layer.table ++ "_" ++ toString r.related_index

/-- A SQL bind parameter passed alongside the compiled query text. -/
inductive SqlParam
  /-- A string-valued parameter (time bounds, extent WKT). -/
  | str (s : String)
  /-- An integer parameter (object ids). -/
  | int (n : Int)
  /-- Python `None` passed as a parameter. -/
  | null
deriving DecidableEq

/-- The validation errors raised by `perform_query` before any SQL executes
(`InvalidSQLError`, `InvalidFieldsError`, `RelatedFieldsError`). -/
inductive QueryError
  /-- `InvalidSQLError('Invalid where clause')`. -/
  | invalidSQL
  /-- `InvalidFieldsError(fields=...)`; the payload is the offending field set. -/
  | invalidFields (fields : List String)
  /-- `RelatedFieldsError(fields=...)`. -/
  | relatedFields (fields : List String)
deriving DecidableEq

instance {ε α : Type} [DecidableEq ε] [DecidableEq α] : DecidableEq (Except ε α) := fun a b =>
  match a, b with
  | .ok x, .ok y =>
    match decEq x y with
    | isTrue h => isTrue (by rw [h])
    | isFalse h => isFalse (fun hc => h (by cases hc; rfl))
  | .error x, .error y =>
    match decEq x y with
    | isTrue h => isTrue (by rw [h])
    | isFalse h => isFalse (fun hc => h (by cases hc; rfl))
  | .ok _, .error _ => isFalse (fun hc => by cases hc)
  | .error _, .ok _ => isFalse (fun hc => by cases hc)

/-! ### Field validation (`FeatureServiceLayer._validate_fields`,
`_parse_where_clause`, `_validate_where_clause`) -/

/-- The layer's own valid field names: `set(f['name'] for f in self.fields).union('*')`
(`valid_fields['source']` in `_validate_fields`). -/
def valid_source_names (layer : Layer) : List String :=
  layer.fields.map (fun f => f.name) ++ ["*"]

/-- The valid related field names: `set(self.related_fields).union(all_related)`
where `all_related` is `relatedTitle.*` for each relation
(`valid_fields['target']` in `_validate_fields`). -/
def valid_target_names (layer : Layer) : List String :=
  layer.related_field_keys ++ layer.relations.map (fun r => r.related_title ++ ".*")

/-- `FeatureServiceLayer._validate_fields(fields, include_related=True)`. -/
def validate_fields (layer : Layer) (fields : List String) (include_related : Bool) :
    Except QueryError Unit :=
  let query_fields := dedupList (fields.map (removeChar '"'))
  if query_fields.isEmpty then .ok ()
  else
    let invalid := query_fields.filter (fun f => !(valid_source_names layer).contains f)
    if invalid.isEmpty then .ok ()
    else if include_related then
      let invalid2 := invalid.filter (fun f => !(valid_target_names layer).contains f)
      if invalid2.isEmpty then .ok () else .error (.invalidFields invalid2)
    else
      let related := invalid.filter (fun f => (valid_target_names layer).contains f)
      if !related.isEmpty then .error (.relatedFields related)
      else .error (.invalidFields invalid)

/-- `FeatureServiceLayer._parse_where_clause`: prepend `WHERE`, tokenize, and
return the referenced field names of the first statement together with the
remaining statements (`parsed[1:]`, invalid if non-empty). -/
def parse_where_clause (whereOpt : Option String) : Option (List String × List String) :=
  match whereOpt with
  | none => none
  | some w =>
    let stmts := sqlStatements ("WHERE " ++ w)
    some (tokenFieldNames (sqlTokenize (stmts.headD "")), stmts.drop 1)

/-- `FeatureServiceLayer._validate_where_clause`. -/
def validate_where_clause (layer : Layer) (whereOpt : Option String) : Except QueryError Unit :=
  match parse_where_clause whereOpt with
  | none => .ok ()
  | some (fields, extra) =>
    if !extra.isEmpty then .error .invalidSQL
    else validate_fields layer fields true

/-! ### Field aliasing and expansion (`_alias_fields`, `_expand_fields`) -/

/-- The quoting path of `_alias_fields` for a non-empty field list: prepend
`source.` to unqualified names, quote each dot segment, comma-join, and
finally replace any quoted `*` by a bare `*`. -/
def alias_quote (fields : List String) : String :=
  let aliased := fields.map (fun f => if containsChar '.' f then f else "source." ++ f)
  let quoted := "\"" ++
    String.intercalate "\", \"" (aliased.map (fun f =>
      String.intercalate "\".\"" (splitStr '.' f))) ++ "\""
  replaceStarStr quoted

/-- The expansion list built by `_expand_fields` when a `*` or a qualified name
is present: the object-id field, every relation source column, then each
requested field with `*` / `relatedTitle.*` wildcards expanded. -/
def fields_to_expand (layer : Layer) (fields : List String) : List String :=
  layer.object_id_field :: layer.relations.map (fun r => r.source_column) ++
    fields.flatMap (fun f =>
      if f = "*" then layer.fields.map (fun fi => fi.name)
      else if hasSuff ".*" f then
        layer.related_field_keys.filter (fun k => hasPref (dropLastChar f) k)
      else [f])

/-- The star-expansion branch of `_expand_fields`: dedup the expansion list
(`OrderedSet`) and render each field, optionally with an `AS` alias.  Each
single field is rendered through the `_alias_fields` quoting path. -/
def expand_fields_star (layer : Layer) (fields : List String) (aliased_only : Bool) : String :=
  String.intercalate ", " ((dedupList (fields_to_expand layer fields)).map (fun f =>
    if aliased_only then alias_quote [f]
    else alias_quote [f] ++ " AS \"" ++ f ++ "\""))

/-- `FeatureServiceLayer._expand_fields(fields, aliased_only)`.  When no field
is a wildcard or qualified, the source falls back to `_alias_fields(fields)`,
which for an empty list recurses into `_expand_fields('*', True)`. -/
def expand_fields (layer : Layer) (fields : List String) (aliased_only : Bool) : String :=
  if fields.any (fun f => f = "*" || containsChar '.' f) then
    expand_fields_star layer fields aliased_only
  else if fields.isEmpty then expand_fields_star layer ["*"] true
  else alias_quote fields

/-- `FeatureServiceLayer._alias_fields(fields)` on a list argument. -/
def alias_fields (layer : Layer) (fields : List String) : String :=
  if fields.isEmpty then expand_fields_star layer ["*"] true
  else alias_quote fields

/-! ### Join clause (`_build_join_clause`) -/

/-- The field set referenced by the query: the (post-branch) return fields,
plus the fields referenced in the where clause when one is present. -/
def join_query_fields (fields : List String) (whereOpt : Option String) : List String :=
  match whereOpt with
  | none => fields
  | some w => fields ++ ((parse_where_clause (some w)).map (fun p => p.1)).getD []

/-- `FeatureServiceLayer._build_join_clause(fields, where)`: the join SQL text
and the list of joined related-table titles. -/
def build_join_clause (layer : Layer) (fields : List String) (whereOpt : Option String) :
    String × List String :=
  if fields.isEmpty && whereOpt = none then ("", [])
  else
    let query_fields := join_query_fields fields whereOpt
    let with_related := query_fields.filter (fun f => layer.related_field_keys.contains f)
    let with_star := query_fields.filter (fun f => containsChar '*' f)
    let join_tables := ((with_related ++ with_star).filter (fun f => containsChar '.' f)).map
      (fun f => ⟨f.data.takeWhile (fun c => c ≠ '.')⟩)
    let rels := layer.relations.filter (fun r => join_tables.contains r.related_title)
    (rels.foldl (fun acc r =>
        acc ++ " LEFT OUTER JOIN \"" ++ relationTable layer r ++ "\" AS \"" ++
          r.related_title ++ "\" ON \"source\".\"" ++ r.source_column ++ "\" = \"" ++
          r.related_title ++ "\".\"" ++ r.target_column ++ "\"") "",
     rels.map (fun r => r.related_title))

/-! ### Where clause (`_build_where_clause`) -/

/-- The leading part of the built where clause: `WHERE 1=1` when no client
clause was given, otherwise the re-emitted, alias-qualified token stream of
`'WHERE ' + where.replace('%', '%%')`. -/
def where_base (whereOpt : Option String) : String :=
  match whereOpt with
  | none => "WHERE 1=1"
  | some w => emitWhereTokens (sqlTokenize ("WHERE " ++ doublePercent w))

/-- The lowercased, quoted, source-aliased time field text
(`layer_time_field` in `_build_where_clause`). -/
def layer_time_field (tf : String) : String :=
  "\"source\".\"" ++ lowerStr tf ++ "\""

/-- The exact-match time predicate text. -/
def time_eq_clause (tf : String) : String :=
  " AND " ++ layer_time_field tf ++ " = %s::date"

/-- The `BETWEEN` time predicate text. -/
def time_between_clause (tf : String) : String :=
  " AND " ++ layer_time_field tf ++ " BETWEEN %s::date AND %s::date"

/-- The default earliest-time-step predicate text (`MIN(timeField)` subquery). -/
def time_min_clause (tf table : String) : String :=
  " AND " ++ layer_time_field tf ++ " = (SELECT MIN(" ++ tf ++ ") FROM \"" ++ table ++ "\")"

/-- The time predicate appended by `_build_where_clause` when the layer has a
`start_time_field`: exact match when `start_time == end_time`, `BETWEEN`
otherwise, and the `MIN(timeField)` default when no time was supplied, no
where clause was given and the query is not count-only. -/
def time_clause (layer : Layer) (whereOpt : Option String) (count_only : Bool)
    (start_time end_time : Option String) : String × List SqlParam :=
  match layer.start_time_field with
  | none => ("", [])
  | some tf =>
    match start_time with
    | some st =>
      if st ≠ "" then
        if end_time = some st then
          (time_eq_clause tf, [.str st])
        else
          (time_between_clause tf, [.str st, (end_time.map SqlParam.str).getD .null])
      else if whereOpt = none && !count_only then
        (time_min_clause tf layer.table, [])
      else ("", [])
    | none =>
      if whereOpt = none && !count_only then
        (time_min_clause tf layer.table, [])
      else ("", [])

/-- The object-id `IN` predicate of `_build_where_clause`. -/
def oid_clause (object_ids : List Int) : String × List SqlParam :=
  if object_ids.isEmpty then ("", [])
  else
    (" AND \"source\".\"" ++ PRIMARY_KEY_NAME ++ "\" IN (" ++
      String.intercalate "," (object_ids.map (fun _ => "%s")) ++ ")",
     object_ids.map SqlParam.int)

/-- The spatial `ST_Intersects` predicate of `_build_where_clause` (note the
trailing space, present in the source). -/
def extent_clause (extent : Option String) : String × List SqlParam :=
  match extent with
  | some e =>
    if e ≠ "" then
      (" AND ST_Intersects(\"source\".\"dbasin_geom\", ST_GeomFromText(%s, 3857)) ", [.str e])
    else ("", [])
  | none => ("", [])

/-- `FeatureServiceLayer._build_where_clause(where, count_only, **kwargs)`:
the where SQL text and its bind parameters. -/
def build_where_clause (layer : Layer) (whereOpt : Option String) (count_only : Bool)
    (start_time end_time : Option String) (object_ids : List Int) (extent : Option String) :
    String × List SqlParam :=
  let tc := time_clause layer whereOpt count_only start_time end_time
  let oc := oid_clause object_ids
  let ec := extent_clause extent
  (where_base whereOpt ++ tc.1 ++ oc.1 ++ ec.1, tc.2 ++ oc.2 ++ ec.2)

/-! ### Order-by clause (`_build_order_by_clause`) -/

/-- An order-by field dict `{'field_name': ..., 'order_modifier': ...}`.  The
outer `Option` on the modifier records whether the key is present at all
(relation-driven inserts create dicts without the key). -/
structure OrderFieldObj where
  field_name : String
  order_modifier : Option (Option String)
deriving DecidableEq

/-- The regex parse `re.match('(\\S*)\\s?(asc|desc)?', field, re.IGNORECASE)`
performed by `perform_query` on each order-by entry. -/
def parse_order_field (f : String) : OrderFieldObj :=
  let nameChars := f.data.takeWhile (fun c => !c.isWhitespace)
  let rest := f.data.drop nameChars.length
  let rest1 := match rest with
    | c :: t => if c.isWhitespace then t else rest
    | [] => []
  let low : List Char := rest1.map Char.toLower
  let modifier :=
    if ['a', 's', 'c'] <+: low then some (String.mk (rest1.take 3))
    else if ['d', 'e', 's', 'c'] <+: low then some (String.mk (rest1.take 4))
    else none
  ⟨⟨nameChars⟩, some modifier⟩

/-- The `insert_field` helper inside `_build_order_by_clause`.  (When the
field is present in the list but not equal as a dict, Python's `list.remove`
would raise `ValueError`; `List.erase` leaves the list unchanged instead.
That corner is not exercised by any theorem below.) -/
def insert_field (l : List OrderFieldObj) (f : OrderFieldObj) : List OrderFieldObj :=
  match l with
  | [] => [f]
  | h :: t =>
    if (h :: t).all (fun d => d.field_name ≠ f.field_name) then f :: h :: t
    else if h.field_name ≠ f.field_name then f :: ((h :: t).erase f)
    else h :: t

/-- Sort relations by descending `related_index` (`order_by('-related_index')`),
by insertion into a sorted list. -/
def sortRelsDesc : List LayerRelation → List LayerRelation
  | [] => []
  | r :: rest =>
    let sorted := sortRelsDesc rest
    let before := sorted.takeWhile (fun s => r.related_index < s.related_index)
    before ++ r :: sorted.drop before.length

/-- `FeatureServiceLayer._build_order_by_clause(field_objs, related_tables)`. -/
def build_order_by_clause (layer : Layer) (field_objs : List OrderFieldObj)
    (related_tables : Option (List String)) : String :=
  let objs : List OrderFieldObj :=
    match related_tables with
    | none =>
      if field_objs.isEmpty then insert_field field_objs ⟨PRIMARY_KEY_NAME, none⟩
      else field_objs
    | some ts =>
      (sortRelsDesc (layer.relations.filter (fun r => ts.contains r.related_title))).foldl
        (fun (l : List OrderFieldObj) (r : LayerRelation) =>
          insert_field l ⟨r.source_column, none⟩) field_objs
  let all_fields :=
    if objs.isEmpty then expand_fields layer [] false
    else
      String.intercalate ", " (objs.map (fun o =>
        expand_fields layer [o.field_name] true ++
          match o.order_modifier with
          | some (some m) => if m = "" then "" else " " ++ m
          | _ => ""))
  "ORDER BY " ++ all_fields

/-! ### Query compilation (`perform_query`, lines 214-288) -/

/-- The keyword arguments of `perform_query`.  `none` models an absent /
`None` argument. -/
structure QueryArgs where
  limit : Int := 0
  offset : Int := 0
  count_only : Bool := false
  ids_only : Bool := false
  return_fields : Option (List String) := none
  return_geometry : Bool := true
  out_sr : Option Int := none
  additional_where_clause : Option String := none
  order_by_fields : List String := []
  object_ids : List Int := []
  start_time : Option String := none
  end_time : Option String := none
  extent : Option String := none
deriving DecidableEq

/-- The normalization of the client where clause performed at
`perform_query` lines 223-224: strip every double quote, and a falsy (empty
or absent) clause becomes `None`. -/
def normalize_where (w : Option String) : Option String :=
  match w with
  | some s => if s = "" then none else some (removeChar '"' s)
  | none => none

/-- The `LIMIT` fragment of the compiled query: absent when the (normalized)
limit is 0, otherwise `LIMIT limit+1` so that truncation can be detected
without a second `COUNT` query. -/
def limit_clause (limit : Int) : String :=
  if limit = 0 then "" else "LIMIT " ++ toString (limit + 1)

/-- The `OFFSET` fragment of the compiled query. -/
def offset_clause (offset : Int) : String :=
  if offset = 0 then "" else "OFFSET " ++ toString offset

/-- The stripped return-field list of `perform_query` line 219:
`[f.strip() for f in list(kwargs.get('return_fields') or '*')]`. -/
def query_return_fields (args : QueryArgs) : List String :=
  (match args.return_fields with
    | some l => if l.isEmpty then ["*"] else l
    | none => ["*"]).map trimStr

/-- The parsed order-by field objects of `perform_query` lines 227-235. -/
def query_order_objs (args : QueryArgs) : List OrderFieldObj :=
  (args.order_by_fields.map trimStr).map parse_order_field

/-- The order-by field names of `perform_query` line 237. -/
def query_order_names (args : QueryArgs) : List String :=
  (query_order_objs args).map (fun o => o.field_name)

/-- The pure SQL-assembly part of `perform_query` (everything after the
validations, lines 250-277): the compiled SQL text and its parameters. -/
def perform_query_build (layer : Layer) (args : QueryArgs) (whereC : Option String) :
    String × List SqlParam :=
  let limit : Int := max args.limit 0
  let offset : Int := max args.offset 0
  let return_fields0 := query_return_fields args
  let out_sr : Int := match args.out_sr with
    | some s => if s = 0 then WEB_MERCATOR_SRID else s
    | none => WEB_MERCATOR_SRID
  let order_objs := query_order_objs args
  let rfsf : List String × String :=
    if args.count_only then ([], "COUNT(0)")
    else if args.ids_only then
      ([layer.object_id_field], "DISTINCT " ++ alias_fields layer [layer.object_id_field])
    else
      let rf := if return_fields0.contains layer.object_id_field then return_fields0
                else layer.object_id_field :: return_fields0
      let sf := expand_fields layer rf false
      let sf := if args.return_geometry then
          sf ++ ", ST_AsText(ST_Transform(\"source\".\"dbasin_geom\", " ++ toString out_sr ++ "))"
        else sf
      (rf, sf)
  let jt := build_join_clause layer rfsf.1 whereC
  let wp := build_where_clause layer whereC args.count_only args.start_time args.end_time
    args.object_ids args.extent
  let order_by :=
    if args.count_only then ""
    else build_order_by_clause layer order_objs (if args.ids_only then none else some jt.2)
  let sql := "SELECT " ++ rfsf.2 ++ " FROM \"" ++ layer.table ++ "\" AS \"source\" " ++
    trimStr jt.1 ++ " " ++ trimStr wp.1 ++ " " ++ order_by ++ " " ++
    limit_clause limit ++ " " ++ offset_clause offset
  (sql, wp.2)

/-- The field-validation block of `perform_query` (lines 242-246): skipped for
ids-only queries; related fields are permitted only when explicit object ids
were supplied (`include_related = bool(kwargs.get('object_ids'))`). -/
def perform_query_field_validation (layer : Layer) (args : QueryArgs) :
    Except QueryError Unit :=
  if args.ids_only then .ok ()
  else
    let include_related := !args.object_ids.isEmpty
    match validate_fields layer (query_return_fields args) include_related with
    | .error e => .error e
    | .ok () => validate_fields layer (query_order_names args) include_related

/-- The validation-then-build pipeline of `perform_query` with the normalized
where clause as an explicit argument (lines 242-277): field validation (with
related fields permitted only when object ids were supplied), then where-clause
validation, then SQL assembly.  An error return means the cursor is never
reached: no SQL is executed. -/
def perform_query_body (layer : Layer) (args : QueryArgs) (whereC : Option String) :
    Except QueryError (String × List SqlParam) :=
  match perform_query_field_validation layer args with
  | .error e => .error e
  | .ok () =>
    match validate_where_clause layer whereC with
    | .error e => .error e
    | .ok () => .ok (perform_query_build layer args whereC)

/-- `FeatureServiceLayer.perform_query` up to the point where the compiled SQL
and parameters are handed to the database cursor. -/
def perform_query_compile (layer : Layer) (args : QueryArgs) :
    Except QueryError (String × List SqlParam) :=
  perform_query_body layer args (normalize_where args.additional_where_clause)

/-- The data phase of `perform_query` (lines 281-288) together with the
database's `LIMIT`/`OFFSET` semantics: `matching` is the full ordered list of
rows satisfying the query's filters; the database returns it after applying
`OFFSET offset` and, when `limit > 0`, `LIMIT limit+1`; the source then drops
the extra row and reports whether the limit was exceeded. -/
def perform_query_data_core {α : Type} (matching : List α) (l o : Nat) :
    List α × Bool :=
  let queried := if l = 0 then matching.drop o else (matching.drop o).take (l + 1)
  if 0 < l ∧ l < queried.length then (queried.dropLast, true) else (queried, false)

/-- The data phase with the argument normalization
`limit, offset = max(limit, 0), max(offset, 0)` of `perform_query` line 215. -/
def perform_query_data {α : Type} (matching : List α) (limit offset : Int) :
    List α × Bool :=
  perform_query_data_core matching (max limit 0).toNat (max offset 0).toNat

/-! ### Mutation (`add_feature`, lines 637-716) -/

/-- The error raised by `add_feature` when the feature's attributes do not
match the live column set (both variants are Python `AttributeError`s). -/
inductive AddError
  /-- `AttributeError('attributes do not match')`: an attribute key is not a
  column of the table.  Carries no field list. -/
  | attributesMismatch
  /-- `AttributeError('Missing attributes ...')`: the listed live columns were
  not supplied. -/
  | missingAttributes (cols : List String)
deriving DecidableEq

/-- The system columns excluded from the attribute match (`system_cols`). -/
def system_cols : List String := [PRIMARY_KEY_NAME, GEOM_FIELD_NAME]

/-- The live non-system column names, lowercased (`colnames_in_table`). -/
def colnames_in_table (tableCols : List String) : List String :=
  (tableCols.filter (fun c => !system_cols.contains c)).map lowerStr

/-- The request's attribute keys with system columns popped
(`columns_in_request`). -/
def request_cols (attrKeys : List String) : List String :=
  attrKeys.filter (fun k => !system_cols.contains k)

/-- The key-check loop of `add_feature`: walk the request keys, failing on a
key that is not a live column and removing present keys from
`columns_not_present`.  (Python's `list.remove` on an absent element raises;
`List.erase` is a no-op.  Under the nodup/subset hypotheses used below the
element is always present, so the behaviours agree.) -/
def attr_check (colnames : List String) : List String → List String → Except AddError (List String)
  | notPresent, [] => .ok notPresent
  | notPresent, k :: ks =>
    if colnames.contains k then attr_check colnames (notPresent.erase k) ks
    else .error .attributesMismatch

/-- `FeatureServiceLayer.add_feature` up to and including the construction of
the `INSERT` command.  `tableCols` is the cursor description of
`SELECT * FROM table LIMIT 0`; `attrKeys` the feature's attribute keys.  An
error return happens before any `INSERT` is executed, leaving the table
unchanged (the geometry `UPDATE` that follows the insert is likewise never
reached). -/
def add_feature (tableCols : List String) (attrKeys : List String) (table : String) :
    Except AddError String :=
  let colnames := colnames_in_table tableCols
  match attr_check colnames colnames (request_cols attrKeys) with
  | .error e => .error e
  | .ok notPresent =>
    if !notPresent.isEmpty then .error (.missingAttributes notPresent)
    else
      .ok ("INSERT INTO " ++ table ++ " (" ++ String.intercalate "," colnames ++
        ") VALUES (" ++ String.intercalate "," (colnames.map (fun _ => "%s")) ++
        ") RETURNING " ++ PRIMARY_KEY_NAME)

/-! ### Geometry codec (`tablo/wkt.py`)

Python's float coordinates are modelled as exact fractions: `Rq` is an
integer numerator/denominator pair without normalization, so every operation
is kernel-computable; `Rq.val` interprets it in `ℚ`.  A fraction with a zero
denominator does not denote a number; theorems that need real-number
reasoning assume all coordinate denominators are non-zero. -/

/-- An exact fraction (model of a Python float, idealized as a real). -/
structure Rq where
  num : Int
  den : Int
deriving DecidableEq

namespace Rq

/-- The rational value of a fraction (0 when the denominator is 0). -/
def val (q : Rq) : ℚ := (q.num : ℚ) / (q.den : ℚ)

/-- Addition. -/
def add (a b : Rq) : Rq := ⟨a.num * b.den + b.num * a.den, a.den * b.den⟩

/-- Subtraction. -/
def sub (a b : Rq) : Rq := ⟨a.num * b.den - b.num * a.den, a.den * b.den⟩

/-- Multiplication. -/
def mul (a b : Rq) : Rq := ⟨a.num * b.num, a.den * b.den⟩

/-- Division. -/
def dvd (a b : Rq) : Rq := ⟨a.num * b.den, a.den * b.num⟩

/-- The fraction 0. -/
def zero : Rq := ⟨0, 1⟩

/-- The fraction 1. -/
def one : Rq := ⟨1, 1⟩

/-- An integer as a fraction. -/
def ofInt (n : Int) : Rq := ⟨n, 1⟩

/-- Python `0 <= x` on the denoted value (sign of `num * den`). -/
def nonneg (a : Rq) : Bool := decide (0 ≤ a.num * a.den)

/-- Python `0 < x` on the denoted value. -/
def pos (a : Rq) : Bool := decide (0 < a.num * a.den)

/-- Python `a <= b` on denoted values. -/
def leb (a b : Rq) : Bool := nonneg (sub b a)

/-- Python `a < b` on denoted values. -/
def ltb (a b : Rq) : Bool := pos (sub b a)

/-- Python `a == b` on denoted values (cross multiplication). -/
def eqb (a b : Rq) : Bool := decide (a.num * b.den = b.num * a.den)

end Rq

/-- A coordinate pair `[x, y]`. -/
abbrev Pt := Rq × Rq

/-- A ring: a list of coordinate pairs. -/
abbrev PtRing := List Pt

/-- Value-level point equality (Python `==` on coordinate pairs). -/
def ptEqb (p q : Pt) : Bool := Rq.eqb p.1 q.1 && Rq.eqb p.2 q.2

/-- All coordinates of a point denote numbers. -/
def ptOk (p : Pt) : Prop := p.1.den ≠ 0 ∧ p.2.den ≠ 0

instance (p : Pt) : Decidable (ptOk p) :=
  decidable_of_iff (p.1.den ≠ 0 ∧ p.2.den ≠ 0) Iff.rfl

/-- `wkt.close_ring`: append the first coordinate when first and last differ.
Python indexes `coordinates[0]` and so raises `IndexError` on an empty ring,
modelled by `none`. -/
def close_ring (coordinates : PtRing) : Option PtRing :=
  match coordinates with
  | [] => none
  | p :: rest =>
    if ptEqb p ((p :: rest).getLast (by simp)) then some (p :: rest)
    else some ((p :: rest) ++ [p])

/-- One summand of the `wkt.is_clockwise` area total:
`(pt2[0] - pt1[0]) * (pt2[1] + pt1[1])`. -/
def edge (pt1 pt2 : Pt) : Rq :=
  Rq.mul (Rq.sub pt2.1 pt1.1) (Rq.add pt2.2 pt1.2)

/-- The running total of `wkt.is_clockwise` over consecutive points. -/
def ring_total : PtRing → Rq
  | p1 :: p2 :: rest => Rq.add (edge p1 p2) (ring_total (p2 :: rest))
  | _ => Rq.zero

/-- `wkt.is_clockwise`: a non-negative total indicates a clockwise ring. -/
def is_clockwise (ring_to_test : PtRing) : Bool :=
  Rq.nonneg (ring_total ring_to_test)

/-- `wkt.edges_intersect` for edges `a1-a2` and `b1-b2`. -/
def edges_intersect (a1 a2 b1 b2 : Pt) : Bool :=
  let ax := Rq.sub a2.1 a1.1
  let ay := Rq.sub a2.2 a1.2
  let bx := Rq.sub b2.1 b1.1
  let by' := Rq.sub b2.2 b1.2
  let ux := Rq.sub a1.1 b1.1
  let uy := Rq.sub a1.2 b1.2
  let a_dot_b := Rq.sub (Rq.mul by' ax) (Rq.mul bx ay)
  if Rq.eqb a_dot_b Rq.zero then false
  else
    let b_dot_u := Rq.sub (Rq.mul bx uy) (Rq.mul by' ux)
    let a_dot_u := Rq.sub (Rq.mul ax uy) (Rq.mul ay ux)
    let ua := Rq.dvd b_dot_u a_dot_b
    let ub := Rq.dvd a_dot_u a_dot_b
    Rq.leb Rq.zero ua && Rq.leb ua Rq.one && Rq.leb Rq.zero ub && Rq.leb ub Rq.one

/-- `wkt.arrays_intersect` in the ring-by-ring case exercised by
`from_rings`: test every edge pair. -/
def arrays_intersect (a b : PtRing) : Bool :=
  (List.range (a.length - 1)).any (fun i =>
    (List.range (b.length - 1)).any (fun j =>
      edges_intersect (a.getD i (Rq.zero, Rq.zero)) (a.getD (i + 1) (Rq.zero, Rq.zero))
        (b.getD j (Rq.zero, Rq.zero)) (b.getD (j + 1) (Rq.zero, Rq.zero))))

/-- One step of `wkt.coordinates_contain_point`: the crossing-number test for
the segment `pt1`-`pt2` (Python's `check_y() and check_x()`). -/
def crossing_step (pt1 pt2 point : Pt) : Bool :=
  let check_y := (Rq.leb pt1.2 point.2 && Rq.ltb point.2 pt2.2) ||
                 (Rq.leb pt2.2 point.2 && Rq.ltb point.2 pt1.2)
  let check_x := Rq.ltb point.1
    (Rq.add (Rq.dvd (Rq.mul (Rq.sub point.2 pt1.2) (Rq.sub pt2.1 pt1.1))
      (Rq.sub pt2.2 pt1.2)) pt1.1)
  check_y && check_x

/-- `wkt.coordinates_contain_point`: crossing-number point-in-polygon test;
`j` starts at `-1` so each point is paired with its predecessor (cyclically). -/
def coordinates_contain_point (coordinates : PtRing) (point : Pt) : Bool :=
  let n := coordinates.length
  (List.range n).foldl (fun contains i =>
    let pt1 := coordinates.getD i (Rq.zero, Rq.zero)
    let pt2 := if i = 0 then coordinates.getD (n - 1) (Rq.zero, Rq.zero)
               else coordinates.getD (i - 1) (Rq.zero, Rq.zero)
    if crossing_step pt1 pt2 point then !contains else contains) false

/-- `wkt.coordinates_contain_coordinates`: containment without intersection. -/
def coordinates_contain_coordinates (outer inner : PtRing) : Bool :=
  !arrays_intersect outer inner &&
    coordinates_contain_point outer (inner.headD (Rq.zero, Rq.zero))

/-- The classification loop of `wkt.from_rings` (lines 82-94): close each
ring, discard rings shorter than 4 points, and split the rest into outer
rings (clockwise, each starting its own polygon `[ring]`) and holes. -/
def classify_rings : List PtRing → Option (List (List PtRing) × List PtRing)
  | [] => some ([], [])
  | r :: rest =>
    match close_ring r with
    | none => none
    | some ring =>
      match classify_rings rest with
      | none => none
      | some (outs, holes) =>
        if ring.length < 4 then some (outs, holes)
        else if is_clockwise ring then some ([ring] :: outs, holes)
        else some (outs, ring :: holes)

/-- Scan the remaining positions of the shared `reversed(outer_rings)`
iterator for an outer ring containing the hole, returning the matched index
and the not-yet-consumed remainder of the iterator. -/
def find_containing (outs : List (List PtRing)) (iter : List Nat) (hole : PtRing) :
    Option (Nat × List Nat) :=
  match iter with
  | [] => none
  | i :: is' =>
    if coordinates_contain_coordinates ((outs.getD i []).headD []) hole then some (i, is')
    else find_containing outs is' hole

/-- The first `while holes` loop of `wkt.from_rings` (lines 99-113).  The
source iterates `reversed(outer_rings)` through a single iterator object
shared across loop passes, so each hole resumes the scan where the previous
hole stopped; a hole that exhausts the iterator goes to `uncontained_holes`
and every later hole then finds the iterator empty. -/
def assign_holes : List (List PtRing) → List Nat → List PtRing → List PtRing →
    List (List PtRing) × List Nat × List PtRing
  | outs, iter, [], unc => (outs, iter, unc)
  | outs, iter, h :: hs, unc =>
    match find_containing outs iter h with
    | some (i, rest) => assign_holes (outs.set i (outs.getD i [] ++ [h])) rest hs unc
    | none => assign_holes outs [] hs (unc ++ [h])

/-- Whether any remaining iterator position has an outer ring whose first ring
intersects the hole (the scan of lines 120-125). -/
def find_intersecting (outs : List (List PtRing)) (iter : List Nat) (hole : PtRing) : Bool :=
  iter.any (fun i => arrays_intersect ((outs.getD i []).headD []) hole)

/-- The second `while uncontained_holes` loop of `wkt.from_rings` (lines
116-130).  A found intersection executes `outer_rings[r].append(hole)`, which
indexes a list by a list and raises `TypeError` (modelled by `none`);
otherwise the hole is reversed and appended as its own outer ring, and the
shared iterator is left exhausted. -/
def promote_holes : List (List PtRing) → List Nat → List PtRing →
    Option (List (List PtRing))
  | outs, _, [] => some outs
  | outs, iter, h :: hs =>
    if find_intersecting outs iter h then none
    else promote_holes (outs ++ [[h.reverse]]) [] hs

/-- `wkt.from_rings`: normalize an Esri ring set into MultiPolygon
coordinates (each polygon is its outer ring followed by its holes).  `none`
models a raised Python exception. -/
def from_rings (rings : List PtRing) : Option (List (List PtRing)) :=
  match classify_rings rings with
  | none => none
  | some (outs, holes) =>
    let iter0 := (List.range outs.length).reverse
    let t := assign_holes outs iter0 holes.reverse []
    promote_holes t.1 t.2.1 t.2.2.reverse

/-- An Esri JSON geometry (`{x, y}`, `{paths}`, or `{rings}`). -/
inductive EsriGeom
  /-- A point `{x, y}`. -/
  | point (x y : Rq)
  /-- A polyline `{paths: [...]}`. -/
  | paths (ps : List (List Pt))
  /-- A polygon `{rings: [...]}`. -/
  | rings (rs : List PtRing)
deriving DecidableEq

/-- A WKT / EWKT text, represented structurally: the optional `SRID=...;`
prefix, the geometry keyword, and the coordinate structure. -/
inductive WktGeom
  /-- `POINT(x y)` (with optional EWKT prefix). -/
  | point (srid : Option Int) (x y : Rq)
  /-- `LINESTRING(...)`. -/
  | lineString (srid : Option Int) (path : List Pt)
  /-- `MULTILINESTRING((...), ...)`. -/
  | multiLineString (srid : Option Int) (ps : List (List Pt))
  /-- `POLYGON((...), ...)`. -/
  | polygon (srid : Option Int) (rs : List PtRing)
  /-- `MULTIPOLYGON(((...)), ...)`. -/
  | multiPolygon (srid : Option Int) (polys : List (List PtRing))
deriving DecidableEq

/-- The geometry keyword of a WKT text. -/
def wkt_kind : WktGeom → String
  | .point _ _ _ => "POINT"
  | .lineString _ _ => "LINESTRING"
  | .multiLineString _ _ => "MULTILINESTRING"
  | .polygon _ _ => "POLYGON"
  | .multiPolygon _ _ => "MULTIPOLYGON"

/-- The SRID prefix of a WKT text (empty for plain WKT). -/
def wkt_srid_text : WktGeom → String
  | .point s _ _ | .lineString s _ | .multiLineString s _ | .polygon s _ | .multiPolygon s _ =>
    match s with
    | some n => "SRID=" ++ toString n ++ ";"
    | none => ""

/-- The text taken by `to_esri_feature` as the geometry type:
`wkt[:wkt.find('(')]`, i.e. everything before the first parenthesis — which
includes the `SRID=...;` prefix when the text is EWKT. -/
def geom_type_of (w : WktGeom) : String :=
  wkt_srid_text w ++ wkt_kind w

/-- `wkt.to_esri_feature(wkt)`: dispatch on the extracted geometry-type text.
A text whose type matches no branch (any EWKT text, for instance) falls off
the end of the function, returning Python `None`.  For `MULTIPOLYGON` only
the first polygon is returned (`_geom_repl()[0]`); an empty multipolygon
raises `IndexError` (`none`). -/
def to_esri_feature (w : WktGeom) : Option EsriGeom :=
  let geom_type := geom_type_of w
  if geom_type = "POINT" || geom_type = "MULTIPOINT" then
    match w with
    | .point _ x y => some (.point x y)
    | _ => none
  else if geom_type = "LINESTRING" then
    match w with
    | .lineString _ p => some (.paths [p])
    | _ => none
  else if geom_type = "MULTILINESTRING" then
    match w with
    | .multiLineString _ ps => some (.paths ps)
    | _ => none
  else if geom_type = "POLYGON" then
    match w with
    | .polygon _ rs => some (.rings rs)
    | _ => none
  else if geom_type = "MULTIPOLYGON" then
    match w with
    | .multiPolygon _ polys => (polys.head?).map .rings
    | _ => none
  else none

/-- `wkt.from_esri_feature(feature, geom_type)`: produce EWKT (with
`SRID=...;` prefix taken from the feature's spatial reference, default 3857).
Points keep `{x, y}`; polylines become `MULTILINESTRING`; polygon rings are
normalized by `from_rings` into a `MULTIPOLYGON`.  An unknown geometry type
raises `ValueError` (`none`); a feature whose shape does not match the
declared type raises `KeyError` (`none`). -/
def from_esri_feature (g : EsriGeom) (geom_type : String) (wkid : Option Int) :
    Option WktGeom :=
  let srid := wkid.getD 3857
  if geom_type = "esriGeometryPoint" then
    match g with
    | .point x y => some (.point (some srid) x y)
    | _ => none
  else if geom_type = "esriGeometryPolyline" then
    match g with
    | .paths ps => some (.multiLineString (some srid) ps)
    | _ => none
  else if geom_type = "esriGeometryPolygon" then
    match g with
    | .rings rs => (from_rings rs).map (.multiPolygon (some srid))
    | _ => none
  else none

/-- Modelled from the spec: geometry written to the database is EWKT, but the
query read path returns it through `ST_AsText`, which yields plain WKT without
the `SRID=...;` prefix (§4.1, §6 "Persisted geometry storage format"). -/
def strip_srid : WktGeom → WktGeom
  | .point _ x y => .point none x y
  | .lineString _ p => .lineString none p
  | .multiLineString _ ps => .multiLineString none ps
  | .polygon _ rs => .polygon none rs
  | .multiPolygon _ polys => .multiPolygon none polys


/-- A small concrete layer used by several concrete-scenario theorems:
object-id field `db_id`, one scalar column `val`, the geometry column, no
relations, no time field. -/
def demo_layer : Layer :=
  { table := "db_table", object_id_field := "db_id",
    fields := [⟨"db_id", "db_id", "esriFieldTypeOID", false⟩,
               ⟨"val", "val", "esriFieldTypeDouble", true⟩,
               ⟨"dbasin_geom", "dbasin_geom", "esriFieldTypeGeometry", true⟩],
    relations := [], related_field_keys := [], start_time_field := none }

/-- A well-formed output polygon: a clockwise outer ring followed by
counter-clockwise holes. -/
def goodPoly (p : List PtRing) : Prop :=
  ∃ r t, p = r :: t ∧ is_clockwise r = true ∧ ∀ x ∈ t, is_clockwise x = false

/-- An integer-coordinate point. -/
def ipt (x y : Int) : Pt := (⟨x, 1⟩, ⟨y, 1⟩)

/-- A large clockwise square (an outer ring). -/
def c5_outer_a : PtRing := [ipt 0 0, ipt 0 100, ipt 100 100, ipt 100 0, ipt 0 0]

/-- A clockwise square nested inside `c5_outer_a`. -/
def c5_outer_b : PtRing := [ipt 10 10, ipt 10 90, ipt 90 90, ipt 90 10, ipt 10 10]

/-- A counter-clockwise hole inside both outer squares. -/
def c5_hole_a : PtRing := [ipt 20 20, ipt 30 20, ipt 30 30, ipt 20 30, ipt 20 20]

/-- A second counter-clockwise hole inside both outer squares. -/
def c5_hole_b : PtRing := [ipt 40 40, ipt 50 40, ipt 50 50, ipt 40 50, ipt 40 40]

/-- Two disjoint clockwise squares (two separate polygons). -/
def c4_sq_a : PtRing := [ipt 0 0, ipt 0 10, ipt 10 10, ipt 10 0, ipt 0 0]

/-- A second clockwise square disjoint from `c4_sq_a`. -/
def c4_sq_b : PtRing := [ipt 20 0, ipt 20 10, ipt 30 10, ipt 30 0, ipt 20 0]

/-! ## Claims -/

theorem mem_dedupKeep (x : String) :
    ∀ (l seen : List String), x ∈ dedupKeep seen l ↔ x ∈ l ∧ x ∉ seen
  | [], seen => by simp [dedupKeep]
  | y :: ys, seen => by
    by_cases hy : seen.contains y = true
    · rw [dedupKeep, if_pos hy, mem_dedupKeep x ys seen]
      have hys : y ∈ seen := List.elem_iff.mp hy
      constructor
      · rintro ⟨hxy, hxs⟩
        exact ⟨List.mem_cons_of_mem _ hxy, hxs⟩
      · rintro ⟨hxy, hxs⟩
        rcases List.mem_cons.mp hxy with h | h
        · exact absurd (h ▸ hys) hxs
        · exact ⟨h, hxs⟩
    · rw [dedupKeep, if_neg hy]
      have hyn : y ∉ seen := fun hc => hy (List.elem_iff.mpr hc)
      constructor
      · intro hx
        rcases List.mem_cons.mp hx with h | h
        · subst h
          exact ⟨List.mem_cons_self _ _, hyn⟩
        · have h2 := (mem_dedupKeep x ys (y :: seen)).mp h
          exact ⟨List.mem_cons_of_mem _ h2.1, fun hc => h2.2 (List.mem_cons_of_mem _ hc)⟩
      · rintro ⟨hxy, hxs⟩
        by_cases hxy2 : x = y
        · subst hxy2
          exact List.mem_cons_self _ _
        · rcases List.mem_cons.mp hxy with h | h
          · exact absurd h hxy2
          · exact List.mem_cons_of_mem _ ((mem_dedupKeep x ys (y :: seen)).mpr
              ⟨h, fun hc => (List.mem_cons.mp hc).elim hxy2 hxs⟩)

theorem mem_dedupList (x : String) (l : List String) : x ∈ dedupList l ↔ x ∈ l := by
  rw [dedupList, mem_dedupKeep]
  simp

namespace Rq

theorem val_add (a b : Rq) (ha : a.den ≠ 0) (hb : b.den ≠ 0) :
    (a.add b).val = a.val + b.val := by
  simp only [val, add]
  push_cast
  rw [div_add_div _ _ (by exact_mod_cast ha) (by exact_mod_cast hb)]
  ring_nf

theorem val_sub (a b : Rq) (ha : a.den ≠ 0) (hb : b.den ≠ 0) :
    (a.sub b).val = a.val - b.val := by
  simp only [val, sub]
  push_cast
  rw [div_sub_div _ _ (by exact_mod_cast ha) (by exact_mod_cast hb)]
  ring_nf

theorem val_mul (a b : Rq) : (a.mul b).val = a.val * b.val := by
  simp only [val, mul]
  push_cast
  rw [div_mul_div_comm]

theorem val_zero : (zero).val = 0 := by simp [val, zero]

theorem den_add (a b : Rq) (ha : a.den ≠ 0) (hb : b.den ≠ 0) : (a.add b).den ≠ 0 :=
  mul_ne_zero ha hb

theorem den_sub (a b : Rq) (ha : a.den ≠ 0) (hb : b.den ≠ 0) : (a.sub b).den ≠ 0 :=
  mul_ne_zero ha hb

theorem den_mul (a b : Rq) (ha : a.den ≠ 0) (hb : b.den ≠ 0) : (a.mul b).den ≠ 0 :=
  mul_ne_zero ha hb

theorem nonneg_iff (a : Rq) : nonneg a = true ↔ 0 ≤ a.val := by
  simp only [nonneg, decide_eq_true_eq, val]
  rw [div_nonneg_iff, mul_nonneg_iff]
  constructor
  · rintro (⟨h1, h2⟩ | ⟨h1, h2⟩)
    · exact Or.inl ⟨by exact_mod_cast h1, by exact_mod_cast h2⟩
    · exact Or.inr ⟨by exact_mod_cast h1, by exact_mod_cast h2⟩
  · rintro (⟨h1, h2⟩ | ⟨h1, h2⟩)
    · exact Or.inl ⟨by exact_mod_cast h1, by exact_mod_cast h2⟩
    · exact Or.inr ⟨by exact_mod_cast h1, by exact_mod_cast h2⟩

end Rq

/-- C2: for every layer, filter set, non-negative offset, and limit `N > 0`,
`perform_query` returns at most `N` rows in its data result, its
`exceeded_limit` flag is true iff more than `N` rows match the filters after
the offset, and the SQL carries `LIMIT N+1` (the extra row being dropped from
the returned data, as `perform_query_data` does). -/
theorem c2_pagination_contract {α : Type} (matching : List α) (N off : Nat) (hN : 0 < N) :
    (perform_query_data matching (N : Int) (off : Int)).1.length ≤ N ∧
    ((perform_query_data matching (N : Int) (off : Int)).2 = true ↔
      N < (matching.drop off).length) ∧
    limit_clause (max (N : Int) 0) = "LIMIT " ++ toString ((N : Int) + 1) := by
  have hl : (max (N : Int) 0).toNat = N := by omega
  have ho : (max (off : Int) 0).toNat = off := by omega
  have hlim : limit_clause (max (N : Int) 0) = "LIMIT " ++ toString ((N : Int) + 1) := by
    have hmax : (max (N : Int) 0) = (N : Int) := by omega
    rw [limit_clause, hmax, if_neg (by omega)]
  have hdq : perform_query_data matching (N : Int) (off : Int) =
      perform_query_data_core matching N off := by
    rw [perform_query_data, hl, ho]
  have hq : ((matching.drop off).take (N + 1)).length = min (N + 1) (matching.drop off).length :=
    List.length_take _ _
  have key : perform_query_data_core matching N off =
      if N < ((matching.drop off).take (N + 1)).length
      then (((matching.drop off).take (N + 1)).dropLast, true)
      else ((matching.drop off).take (N + 1), false) := by
    simp only [perform_query_data_core, if_neg hN.ne']
    by_cases hgt : N < ((matching.drop off).take (N + 1)).length
    · rw [if_pos ⟨hN, hgt⟩, if_pos hgt]
    · rw [if_neg (fun hc => hgt hc.2), if_neg hgt]
  rw [hdq, key]
  by_cases hgt : N < ((matching.drop off).take (N + 1)).length
  · rw [if_pos hgt]
    refine ⟨?_, ?_, hlim⟩
    · simp only [List.length_dropLast]
      omega
    · simp only [true_iff]
      omega
  · rw [if_neg hgt]
    refine ⟨?_, ?_, hlim⟩
    · simp only []
      omega
    · simp only [Bool.false_eq_true, false_iff]
      omega

/-- Witness for C2 at a concrete input: three matching rows, limit 1,
offset 0. -/
theorem c2_pagination_contract_witness :
    (perform_query_data [10, 20, 30] ((1 : Nat) : Int) ((0 : Nat) : Int)).1.length ≤ 1 ∧
    ((perform_query_data [10, 20, 30] ((1 : Nat) : Int) ((0 : Nat) : Int)).2 = true ↔
      1 < ([10, 20, 30].drop 0).length) ∧
    limit_clause (max ((1 : Nat) : Int) 0) = "LIMIT " ++ toString (((1 : Nat) : Int) + 1) :=
  c2_pagination_contract [10, 20, 30] 1 0 (by decide)

/-- C1: for every client where clause whose tokenization (of the quote-stripped
text the validator receives, prefixed with `WHERE`) yields more than one
top-level statement, `_validate_where_clause` raises `InvalidSQLError`, and
`perform_query` fails during validation — before any SQL is executed; when the
preceding return/order field validations pass (or are skipped for an ids-only
query), the error is exactly `InvalidSQLError`. -/
theorem c1_multi_statement_rejected (layer : Layer) (args : QueryArgs) (w : String)
    (hw : args.additional_where_clause = some w) (hne : w ≠ "")
    (hmulti : 1 < (sqlStatements ("WHERE " ++ removeChar '"' w)).length) :
    validate_where_clause layer (some (removeChar '"' w)) = .error .invalidSQL ∧
    (∃ e, perform_query_compile layer args = .error e) ∧
    (perform_query_field_validation layer args = .ok () →
      perform_query_compile layer args = .error .invalidSQL) := by
  have hextra : ((sqlStatements ("WHERE " ++ removeChar '"' w)).drop 1).isEmpty = false := by
    rw [List.isEmpty_eq_false_iff_exists_mem]
    have hlen : 0 < ((sqlStatements ("WHERE " ++ removeChar '"' w)).drop 1).length := by
      rw [List.length_drop]
      omega
    exact List.exists_mem_of_length_pos hlen
  have hvwc : validate_where_clause layer (some (removeChar '"' w)) = .error .invalidSQL := by
    rw [validate_where_clause, parse_where_clause]
    simp only [hextra, Bool.not_false, if_pos]
  have hnw : normalize_where args.additional_where_clause = some (removeChar '"' w) := by
    rw [hw, normalize_where]
    simp only [hne, if_neg]
    simp [hne]
  have hcomp : perform_query_compile layer args =
      perform_query_body layer args (some (removeChar '"' w)) := by
    rw [perform_query_compile, hnw]
  refine ⟨hvwc, ?_, ?_⟩
  · rw [hcomp, perform_query_body]
    cases hfv : perform_query_field_validation layer args with
    | error e => exact ⟨e, rfl⟩
    | ok u =>
      cases u
      rw [hvwc]
      exact ⟨.invalidSQL, rfl⟩
  · intro hok
    rw [hcomp, perform_query_body, hok, hvwc]

/-- Witness for C1: the spec's own injection example `1=1; DROP TABLE x`
against a small concrete layer, with default query arguments. -/
theorem c1_multi_statement_rejected_witness :
    validate_where_clause
        ⟨"db_table", "db_id", [⟨"db_id", "db_id", "esriFieldTypeOID", false⟩], [], [], none⟩
        (some (removeChar '"' "1=1; DROP TABLE x")) = .error .invalidSQL ∧
      (∃ e, perform_query_compile
        ⟨"db_table", "db_id", [⟨"db_id", "db_id", "esriFieldTypeOID", false⟩], [], [], none⟩
        { additional_where_clause := some "1=1; DROP TABLE x" } = .error e) ∧
      (perform_query_field_validation
          ⟨"db_table", "db_id", [⟨"db_id", "db_id", "esriFieldTypeOID", false⟩], [], [], none⟩
          { additional_where_clause := some "1=1; DROP TABLE x" } = .ok () →
        perform_query_compile
          ⟨"db_table", "db_id", [⟨"db_id", "db_id", "esriFieldTypeOID", false⟩], [], [], none⟩
          { additional_where_clause := some "1=1; DROP TABLE x" } = .error .invalidSQL) :=
  c1_multi_statement_rejected
    ⟨"db_table", "db_id", [⟨"db_id", "db_id", "esriFieldTypeOID", false⟩], [], [], none⟩
    { additional_where_clause := some "1=1; DROP TABLE x" }
    "1=1; DROP TABLE x" rfl (by decide) (by decide)

/-- C6: for every field list containing a name (after quote removal) that is
absent from both the layer's own field catalog and the qualified related-field
names, validation with related fields permitted — the configuration used for
where-clause fields — fails with `InvalidFieldsError` whose `fields` attribute
holds exactly the set of offending names. -/
theorem c6_invalid_fields_exact (layer : Layer) (fields : List String) (g : String)
    (hg : g ∈ fields.map (removeChar '"'))
    (hs : (valid_source_names layer).contains g = false)
    (ht : (valid_target_names layer).contains g = false) :
    ∃ l, validate_fields layer fields true = .error (.invalidFields l) ∧
      ∀ x, x ∈ l ↔ x ∈ fields.map (removeChar '"') ∧
        (valid_source_names layer).contains x = false ∧
        (valid_target_names layer).contains x = false := by
  have hqf : g ∈ dedupList (fields.map (removeChar '"')) := (mem_dedupList _ _).mpr hg
  have h1 : (dedupList (fields.map (removeChar '"'))).isEmpty = false := by
    rw [List.isEmpty_eq_false_iff_exists_mem]
    exact ⟨g, hqf⟩
  have hginv : g ∈ (dedupList (fields.map (removeChar '"'))).filter
      (fun f => !(valid_source_names layer).contains f) :=
    List.mem_filter.mpr ⟨hqf, by rw [hs]; rfl⟩
  have h2 : ((dedupList (fields.map (removeChar '"'))).filter
      (fun f => !(valid_source_names layer).contains f)).isEmpty = false := by
    rw [List.isEmpty_eq_false_iff_exists_mem]
    exact ⟨g, hginv⟩
  have hginv2 : g ∈ ((dedupList (fields.map (removeChar '"'))).filter
      (fun f => !(valid_source_names layer).contains f)).filter
      (fun f => !(valid_target_names layer).contains f) :=
    List.mem_filter.mpr ⟨hginv, by rw [ht]; rfl⟩
  have h3 : (((dedupList (fields.map (removeChar '"'))).filter
      (fun f => !(valid_source_names layer).contains f)).filter
      (fun f => !(valid_target_names layer).contains f)).isEmpty = false := by
    rw [List.isEmpty_eq_false_iff_exists_mem]
    exact ⟨g, hginv2⟩
  refine ⟨((dedupList (fields.map (removeChar '"'))).filter
      (fun f => !(valid_source_names layer).contains f)).filter
      (fun f => !(valid_target_names layer).contains f), ?_, ?_⟩
  · rw [validate_fields]
    simp only [h1, h2, h3, Bool.false_eq_true, if_false, if_true]
  · intro x
    simp only [List.mem_filter, mem_dedupList, Bool.not_eq_true', and_assoc]

/-- Witness for C6: the spec's example field `nonexistent_col` on a concrete
layer with one relation. -/
theorem c6_invalid_fields_exact_witness :
    ∃ l, validate_fields
        ⟨"db_table", "db_id", [⟨"db_id", "db_id", "esriFieldTypeOID", false⟩],
          [⟨0, "measurements", "base_table_field", "base_table_field_ref"⟩],
          ["measurements.well_depth"], none⟩
        ["nonexistent_col"] true = .error (.invalidFields l) ∧
      ∀ x, x ∈ l ↔ x ∈ ["nonexistent_col"].map (removeChar '"') ∧
        (valid_source_names
          ⟨"db_table", "db_id", [⟨"db_id", "db_id", "esriFieldTypeOID", false⟩],
            [⟨0, "measurements", "base_table_field", "base_table_field_ref"⟩],
            ["measurements.well_depth"], none⟩).contains x = false ∧
        (valid_target_names
          ⟨"db_table", "db_id", [⟨"db_id", "db_id", "esriFieldTypeOID", false⟩],
            [⟨0, "measurements", "base_table_field", "base_table_field_ref"⟩],
            ["measurements.well_depth"], none⟩).contains x = false :=
  c6_invalid_fields_exact
    ⟨"db_table", "db_id", [⟨"db_id", "db_id", "esriFieldTypeOID", false⟩],
      [⟨0, "measurements", "base_table_field", "base_table_field_ref"⟩],
      ["measurements.well_depth"], none⟩
    ["nonexistent_col"] "nonexistent_col" (by decide) (by decide) (by decide)

/-- C7: for a layer with a time field, the compiled WHERE clause carries an
exact-match predicate on the (lowercased) time field when the start time
equals the end time, a BETWEEN predicate when they differ, and — when no time
was supplied, no client where clause was given and the query is not
count-only — the `MIN(timeField)` single-earliest-time-step default; the time
bounds travel as bound parameters (`%s` placeholders). -/
theorem c7_time_predicates (layer : Layer) (tf : String)
    (h : layer.start_time_field = some tf) (w? : Option String) (co : Bool)
    (s e : String) (et : Option String) :
    (s ≠ "" → build_where_clause layer w? co (some s) (some s) [] none =
      (where_base w? ++ time_eq_clause tf, [SqlParam.str s])) ∧
    (s ≠ "" → e ≠ s → build_where_clause layer w? co (some s) (some e) [] none =
      (where_base w? ++ time_between_clause tf, [SqlParam.str s, SqlParam.str e])) ∧
    (build_where_clause layer none false none et [] none =
      ("WHERE 1=1" ++ time_min_clause tf layer.table, [])) := by
  refine ⟨?_, ?_, ?_⟩
  · intro hs
    simp only [build_where_clause, time_clause, h, oid_clause, extent_clause,
      List.isEmpty_nil, if_pos, if_neg hs, hs, ne_eq, not_false_eq_true, if_true]
    simp
  · intro hs he
    have hne : (some e : Option String) ≠ some s := by
      intro hc
      exact he (Option.some.inj hc)
    simp only [build_where_clause, time_clause, h, oid_clause, extent_clause,
      List.isEmpty_nil, hs, ne_eq, not_false_eq_true, if_true, if_neg hne]
    simp
  · simp only [build_where_clause, time_clause, h, oid_clause, extent_clause,
      List.isEmpty_nil]
    simp [where_base]

/-- Witness for C7 at a concrete layer (time field `Obs_Date`, table
`db_table`), start `2020-01-01`, end `2020-02-01`. -/
theorem c7_time_predicates_witness :
    ("2020-01-01" ≠ "" → build_where_clause
        ⟨"db_table", "db_id", [], [], [], some "Obs_Date"⟩ none false
        (some "2020-01-01") (some "2020-01-01") [] none =
      (where_base none ++ time_eq_clause "Obs_Date", [SqlParam.str "2020-01-01"])) ∧
    ("2020-01-01" ≠ "" → "2020-02-01" ≠ "2020-01-01" → build_where_clause
        ⟨"db_table", "db_id", [], [], [], some "Obs_Date"⟩ none false
        (some "2020-01-01") (some "2020-02-01") [] none =
      (where_base none ++ time_between_clause "Obs_Date",
       [SqlParam.str "2020-01-01", SqlParam.str "2020-02-01"])) ∧
    (build_where_clause ⟨"db_table", "db_id", [], [], [], some "Obs_Date"⟩ none false
        none none [] none =
      ("WHERE 1=1" ++ time_min_clause "Obs_Date" "db_table", [])) :=
  c7_time_predicates ⟨"db_table", "db_id", [], [], [], some "Obs_Date"⟩ "Obs_Date" rfl
    none false "2020-01-01" "2020-02-01" none

theorem star_in_source (layer : Layer) : "*" ∈ valid_source_names layer :=
  List.mem_append_right _ (List.mem_singleton.mpr rfl)

theorem validate_fields_star (layer : Layer) (ir : Bool) :
    validate_fields layer ["*"] ir = .ok () := by
  rw [validate_fields]
  have hd : dedupList (["*"].map (removeChar '"')) = ["*"] := rfl
  rw [hd]
  simp [star_in_source layer]

theorem validate_fields_nil (layer : Layer) (ir : Bool) :
    validate_fields layer [] ir = .ok () := by
  rw [validate_fields]
  rfl

theorem field_validation_of_defaults (layer : Layer) (args : QueryArgs)
    (h1 : query_return_fields args = ["*"]) (h2 : query_order_names args = [])
    (h3 : args.ids_only = false) :
    perform_query_field_validation layer args = .ok () := by
  rw [perform_query_field_validation, h3, h1, h2]
  simp only [Bool.false_eq_true, if_false, validate_fields_star, validate_fields_nil]

/-- C9: field references inside the client where clause are validated with
related-table fields always permitted — `_validate_where_clause` calls
`_validate_fields` with its default `include_related=True` — even when no
object ids were supplied, whereas the same related-only field requested via
`return_fields` is rejected with `RelatedFieldsError` when no object ids are
present.  Here `f` is a valid related field that is not a source field, and
`w` a where clause referencing exactly `f`. -/
theorem c9_related_fields_in_where (layer : Layer) (f w : String)
    (hq : removeChar '"' f = f) (htr : trimStr f = f) (hw : w ≠ "")
    (hTok : parse_where_clause (some (removeChar '"' w)) = some ([f], []))
    (hsrc : (valid_source_names layer).contains f = false)
    (htgt : (valid_target_names layer).contains f = true) :
    (∃ sp, perform_query_compile layer { additional_where_clause := some w } = .ok sp) ∧
    perform_query_compile layer { return_fields := some [f] } =
      .error (.relatedFields [f]) := by
  have hdf : dedupList ([f].map (removeChar '"')) = [f] := by
    have : [f].map (removeChar '"') = [f] := by rw [List.map_singleton, hq]
    rw [this]
    simp [dedupList, dedupKeep]
  have hsrcm : f ∉ valid_source_names layer := fun hc => by
    have hcontra : (true : Bool) = false := (List.elem_iff.mpr hc).symm.trans hsrc
    exact absurd hcontra (by simp)
  have htgtm : f ∈ valid_target_names layer := List.elem_iff.mp htgt
  constructor
  · have hnw : normalize_where (some w) = some (removeChar '"' w) := by
      rw [normalize_where]
      simp [hw]
    have hfv : perform_query_field_validation layer
        { additional_where_clause := some w } = .ok () :=
      field_validation_of_defaults layer _ rfl rfl rfl
    have hvw : validate_where_clause layer (some (removeChar '"' w)) = .ok () := by
      rw [validate_where_clause, hTok]
      simp only [List.isEmpty_nil, Bool.not_true, Bool.false_eq_true, if_false]
      rw [validate_fields, hdf]
      simp [hsrcm, htgtm]
    refine ⟨perform_query_build layer { additional_where_clause := some w }
      (some (removeChar '"' w)), ?_⟩
    rw [perform_query_compile]
    have : normalize_where (QueryArgs.additional_where_clause
        { additional_where_clause := some w }) = some (removeChar '"' w) := hnw
    rw [this, perform_query_body, hfv, hvw]
  · have hrf : query_return_fields { return_fields := some [f] } = [f] := by
      rw [query_return_fields]
      simp [htr]
    have hvf2 : validate_fields layer [f] false = .error (.relatedFields [f]) := by
      rw [validate_fields, hdf]
      simp [hsrcm, htgtm]
    rw [perform_query_compile]
    have hnw2 : normalize_where (QueryArgs.additional_where_clause
        { return_fields := some [f] }) = none := rfl
    rw [hnw2, perform_query_body, perform_query_field_validation]
    simp only [Bool.false_eq_true, if_false, hrf, List.isEmpty_nil, Bool.not_true]
    rw [hvf2]

/-- Witness for C9: the related field `measurements.well_depth` used in a
where clause with no object ids (accepted) versus in `return_fields`
(rejected). -/
theorem c9_related_fields_in_where_witness :
    (∃ sp, perform_query_compile
        ⟨"db_table", "db_id", [⟨"db_id", "db_id", "esriFieldTypeOID", false⟩],
          [⟨0, "measurements", "base_table_field", "base_table_field_ref"⟩],
          ["measurements.well_depth"], none⟩
        { additional_where_clause := some "measurements.well_depth > 50" } = .ok sp) ∧
    perform_query_compile
        ⟨"db_table", "db_id", [⟨"db_id", "db_id", "esriFieldTypeOID", false⟩],
          [⟨0, "measurements", "base_table_field", "base_table_field_ref"⟩],
          ["measurements.well_depth"], none⟩
        { return_fields := some ["measurements.well_depth"] } =
      .error (.relatedFields ["measurements.well_depth"]) :=
  c9_related_fields_in_where
    ⟨"db_table", "db_id", [⟨"db_id", "db_id", "esriFieldTypeOID", false⟩],
      [⟨0, "measurements", "base_table_field", "base_table_field_ref"⟩],
      ["measurements.well_depth"], none⟩
    "measurements.well_depth" "measurements.well_depth > 50"
    (by decide) (by decide) (by decide) (by decide) (by decide) (by decide)

theorem removeChar_no_occurrence (ch : Char) (s : String) :
    ∀ c ∈ (removeChar ch s).data, c ≠ ch := by
  intro c hc
  have := List.mem_filter.mp hc
  simpa using this.2

theorem removeChar_idem (ch : Char) (s : String) :
    removeChar ch (removeChar ch s) = removeChar ch s := by
  rw [removeChar, removeChar]
  congr 1
  exact List.filter_eq_self.mpr (fun a ha => by
    have := List.mem_filter.mp ha
    exact this.2)

/-- C10 counterexample: the claim "the validated and compiled clause equals
that of the unquoted text" fails at the where clause `""` (two double-quote
characters).  Its unquoted text is the empty string, which `perform_query`
treats as no clause at all (compiling `WHERE 1=1`), whereas the two-quote
input survives the truthiness check before stripping and compiles a bare
`WHERE`.  The two compilations differ. -/
theorem c10_quote_strip_counterexample :
    perform_query_compile demo_layer { additional_where_clause := some "\"\"" } ≠
      perform_query_compile demo_layer { additional_where_clause := some "" } := by
  decide

/-- C10 as amended: every double quote is stripped from the client where
clause before validation and compilation, and whenever the stripped text is
non-empty, the whole compilation equals that of the unquoted text (so quoted
identifiers cannot reach validation or SQL in quoted form). -/
theorem c10_quote_strip_amended (layer : Layer) (args : QueryArgs) (w : String)
    (h : removeChar '"' w ≠ "") :
    perform_query_compile layer { args with additional_where_clause := some w } =
      perform_query_compile layer
        { args with additional_where_clause := some (removeChar '"' w) } ∧
    ∀ c ∈ (removeChar '"' w).data, c ≠ '"' := by
  have hw : w ≠ "" := by
    intro hc
    subst hc
    exact h rfl
  have hn1 : normalize_where (some w) = some (removeChar '"' w) := by
    rw [normalize_where]
    simp [hw]
  have hn2 : normalize_where (some (removeChar '"' w)) = some (removeChar '"' w) := by
    rw [normalize_where]
    simp only [h, if_neg, removeChar_idem]
    simp [h]
  constructor
  · rw [perform_query_compile, perform_query_compile]
    have e1 : QueryArgs.additional_where_clause
        { args with additional_where_clause := some w } = some w := rfl
    have e2 : QueryArgs.additional_where_clause
        { args with additional_where_clause := some (removeChar '"' w) } =
        some (removeChar '"' w) := rfl
    rw [e1, e2, hn1, hn2]
    rfl
  · exact removeChar_no_occurrence '"' w

/-- Witness for C10 (amended): a quoted clause over the demo layer. -/
theorem c10_quote_strip_amended_witness :
    perform_query_compile demo_layer
        { additional_where_clause := some "\"val\" = 1" } =
      perform_query_compile demo_layer
        { additional_where_clause := some (removeChar '"' "\"val\" = 1") } ∧
    ∀ c ∈ (removeChar '"' "\"val\" = 1").data, c ≠ '"' :=
  c10_quote_strip_amended demo_layer {} "\"val\" = 1" (by decide)

/-- C3 counterexample: the claim's exact SQL ends in
`ORDER BY "source"."db_id"` (the object-id field alone), but `perform_query`
on a layer with object-id `db_id`, no relations, no where clause, limit 0 and
offset 0 does not compile that string: with no explicit order and a
(non-`None`) empty related-table list, `_build_order_by_clause` falls back to
`_expand_fields([])`, which expands to the full field list. -/
theorem c3_concrete_scenario_counterexample :
    perform_query_compile demo_layer {} ≠
      .ok ("SELECT \"source\".\"db_id\" AS \"db_id\", \"source\".\"val\" AS \"val\", " ++
        "\"source\".\"dbasin_geom\" AS \"dbasin_geom\", " ++
        "ST_AsText(ST_Transform(\"source\".\"dbasin_geom\", 3857)) " ++
        "FROM \"db_table\" AS \"source\"  WHERE 1=1 " ++
        "ORDER BY \"source\".\"db_id\"  ", []) := by
  decide

/-- C3 as amended: the same scenario compiles exactly
`SELECT ... FROM "<table>" AS "source"  WHERE 1=1 ORDER BY <every expanded
field, object-id first>  ` — no LIMIT or OFFSET clause, two trailing spaces,
an empty parameter list — the ORDER BY listing all expanded fields
(`db_id, val, dbasin_geom`), not the object-id field alone. -/
theorem c3_concrete_scenario_amended :
    perform_query_compile demo_layer {} =
      .ok ("SELECT \"source\".\"db_id\" AS \"db_id\", \"source\".\"val\" AS \"val\", " ++
        "\"source\".\"dbasin_geom\" AS \"dbasin_geom\", " ++
        "ST_AsText(ST_Transform(\"source\".\"dbasin_geom\", 3857)) " ++
        "FROM \"db_table\" AS \"source\"  WHERE 1=1 " ++
        "ORDER BY \"source\".\"db_id\", \"source\".\"val\", \"source\".\"dbasin_geom\"  ",
        []) := by
  decide

theorem attr_check_eq (colnames : List String) :
    ∀ (ks notP : List String), ks.Nodup → notP.Nodup →
      (∀ k ∈ ks, k ∈ colnames) →
      attr_check colnames notP ks = .ok (notP.filter (fun c => !ks.contains c))
  | [], notP, _, _, _ => by
    simp only [attr_check]
    congr 1
    exact (List.filter_eq_self.mpr (fun a _ => rfl)).symm
  | k :: ks, notP, hks, hnp, hsub => by
    rw [attr_check, if_pos (List.elem_iff.mpr (hsub k (List.mem_cons_self _ _)))]
    rw [attr_check_eq colnames ks (notP.erase k) (List.Nodup.of_cons hks) (hnp.erase k)
      (fun x hx => hsub x (List.mem_cons_of_mem _ hx))]
    congr 1
    rw [List.Nodup.erase_eq_filter hnp, List.filter_filter]
    apply List.filter_congr
    intro x _
    by_cases hxk : x = k
    · subst hxk
      simp [List.contains_cons]
    · simp [hxk, List.contains_cons]

/-- C8 counterexample: a feature payload that omits the required column
`height` but also carries the unknown key `typo` fails with the generic
`attributes do not match` error — which carries no field list — rather than
with an error listing exactly the missing column. -/
theorem c8_counterexample :
    add_feature ["db_id", "dbasin_geom", "name", "height"] ["name", "typo"] "db_table" =
      .error .attributesMismatch ∧
    AddError.attributesMismatch ≠ AddError.missingAttributes ["height"] := by
  decide

/-- C8 as amended: when every supplied non-system attribute key is a live
column and at least one live non-system column is missing, `add_feature`
raises the `Missing attributes` error listing exactly the missing columns,
and returns before building or executing any INSERT (the error return of
`add_feature` precedes the insert construction, so the table is unchanged);
when an unknown key is supplied, the generic `attributes do not match` error
is raised instead, likewise before any INSERT. -/
theorem c8_missing_attributes (tableCols attrKeys : List String) (table : String)
    (hnodupC : (colnames_in_table tableCols).Nodup)
    (hnodupK : (request_cols attrKeys).Nodup)
    (hsub : ∀ k ∈ request_cols attrKeys, k ∈ colnames_in_table tableCols)
    (hmiss : ∃ c ∈ colnames_in_table tableCols, c ∉ request_cols attrKeys) :
    add_feature tableCols attrKeys table =
      .error (.missingAttributes ((colnames_in_table tableCols).filter
        (fun c => !(request_cols attrKeys).contains c))) := by
  rw [add_feature, attr_check_eq _ _ _ hnodupK hnodupC hsub]
  have hne : ((colnames_in_table tableCols).filter
      (fun c => !(request_cols attrKeys).contains c)).isEmpty = false := by
    rw [List.isEmpty_eq_false_iff_exists_mem]
    obtain ⟨c, hc1, hc2⟩ := hmiss
    refine ⟨c, List.mem_filter.mpr ⟨hc1, ?_⟩⟩
    have : (request_cols attrKeys).contains c = false := by
      by_contra hcon
      rw [Bool.not_eq_false] at hcon
      exact hc2 (List.elem_iff.mp hcon)
    rw [this]
    rfl
  simp [hne]
  exact hmiss

/-- Witness for C8 (amended theorem): the payload supplies only `name`, so the
missing-attributes error lists exactly `height`. -/
theorem c8_missing_attributes_witness :
    add_feature ["db_id", "dbasin_geom", "name", "height"] ["name"] "db_table" =
      .error (.missingAttributes ((colnames_in_table
        ["db_id", "dbasin_geom", "name", "height"]).filter
        (fun c => !(request_cols ["name"]).contains c))) :=
  c8_missing_attributes ["db_id", "dbasin_geom", "name", "height"] ["name"] "db_table"
    (by decide) (by decide) (by decide) ⟨"height", by decide, by decide⟩

theorem edge_den (a b : Pt) (ha : ptOk a) (hb : ptOk b) : (edge a b).den ≠ 0 :=
  Rq.den_mul _ _ (Rq.den_sub _ _ hb.1 ha.1) (Rq.den_add _ _ hb.2 ha.2)

theorem edge_val (a b : Pt) (ha : ptOk a) (hb : ptOk b) :
    (edge a b).val = (b.1.val - a.1.val) * (b.2.val + a.2.val) := by
  rw [edge, Rq.val_mul, Rq.val_sub _ _ hb.1 ha.1, Rq.val_add _ _ hb.2 ha.2]

theorem edge_val_swap (a b : Pt) (ha : ptOk a) (hb : ptOk b) :
    (edge b a).val = -(edge a b).val := by
  rw [edge_val a b ha hb, edge_val b a hb ha]
  ring

theorem ring_total_den : ∀ (l : PtRing), (∀ p ∈ l, ptOk p) → (ring_total l).den ≠ 0
  | [], _ => one_ne_zero
  | [_], _ => one_ne_zero
  | p1 :: p2 :: rest, h => by
    rw [ring_total]
    exact Rq.den_add _ _
      (edge_den p1 p2 (h p1 (by simp)) (h p2 (by simp)))
      (ring_total_den (p2 :: rest) (fun p hp => h p (List.mem_cons_of_mem _ hp)))

theorem ring_total_append : ∀ (l : PtRing) (x : Pt) (hl : l ≠ []),
    (∀ p ∈ l, ptOk p) → ptOk x →
    (ring_total (l ++ [x])).val = (ring_total l).val + (edge (l.getLast hl) x).val
  | [], _, hl, _, _ => absurd rfl hl
  | [a], x, _, hp, hx => by
    have ha : ptOk a := hp a (by simp)
    rw [show ([a] ++ [x] : PtRing) = [a, x] from rfl, ring_total,
      Rq.val_add _ _ (edge_den a x ha hx) one_ne_zero]
    simp [ring_total, Rq.val_zero, List.getLast]
  | a :: b :: t, x, _, hp, hx => by
    have ha : ptOk a := hp a (by simp)
    have hb : ptOk b := hp b (by simp)
    have hbt : ∀ p ∈ b :: t, ptOk p := fun p hp2 => hp p (List.mem_cons_of_mem _ hp2)
    have hbtx : ∀ p ∈ (b :: t) ++ [x], ptOk p := by
      intro p hp2
      rcases List.mem_append.mp hp2 with h | h
      · exact hbt p h
      · rw [List.mem_singleton.mp h]
        exact hx
    have e1 : ((a :: b :: t) ++ [x] : PtRing) = a :: ((b :: t) ++ [x]) := rfl
    have e2 : (a :: ((b :: t) ++ [x]) : PtRing) = a :: b :: (t ++ [x]) := rfl
    rw [e1, e2, ring_total,
      Rq.val_add _ _ (edge_den a b ha hb)
        (by
          have : (b :: (t ++ [x]) : PtRing) = (b :: t) ++ [x] := rfl
          rw [this]
          exact ring_total_den _ hbtx),
      show (b :: (t ++ [x]) : PtRing) = (b :: t) ++ [x] from rfl,
      ring_total_append (b :: t) x (by simp) hbt hx, ring_total,
      Rq.val_add _ _ (edge_den a b ha hb) (ring_total_den _ hbt)]
    have hlast : ((a :: b :: t).getLast (by simp) : Pt) = (b :: t).getLast (by simp) := by
      rw [List.getLast_cons]
    rw [hlast]
    ring

theorem ring_total_reverse : ∀ (l : PtRing), (∀ p ∈ l, ptOk p) →
    (ring_total l.reverse).val = -(ring_total l).val
  | [], _ => by simp [ring_total, Rq.val_zero]
  | [a], _ => by simp [ring_total, Rq.val_zero]
  | a :: b :: t, hp => by
    have ha : ptOk a := hp a (by simp)
    have hbt : ∀ p ∈ b :: t, ptOk p := fun p hp2 => hp p (List.mem_cons_of_mem _ hp2)
    have hrev : ∀ p ∈ (b :: t).reverse, ptOk p := fun p hp2 =>
      hbt p (List.mem_reverse.mp hp2)
    have hrevne : ((b :: t).reverse : PtRing) ≠ [] := by simp
    have e1 : ((a :: b :: t).reverse : PtRing) = (b :: t).reverse ++ [a] := by
      simp
    rw [e1, ring_total_append _ a hrevne hrev ha,
      ring_total_reverse (b :: t) hbt]
    have hlast : ((b :: t).reverse.getLast hrevne : Pt) = b := by
      rw [List.getLast_reverse]
      rfl
    rw [hlast, ring_total,
      Rq.val_add _ _ (edge_den a b ha (hbt b (by simp))) (ring_total_den _ hbt),
      edge_val_swap a b ha (hbt b (by simp))]
    ring

/-- Reversing a counter-clockwise ring of well-formed points yields a
clockwise ring (`hole.reverse()` in the `from_rings` fallback). -/
theorem is_clockwise_reverse (l : PtRing) (hp : ∀ p ∈ l, ptOk p)
    (h : is_clockwise l = false) : is_clockwise l.reverse = true := by
  rw [is_clockwise] at h ⊢
  have hneg : ¬ (0 ≤ (ring_total l).val) := by
    intro hc
    rw [← Rq.nonneg_iff] at hc
    rw [h] at hc
    exact absurd hc (by simp)
  rw [Rq.nonneg_iff, ring_total_reverse l hp]
  linarith

theorem close_ring_subset (r c : PtRing) (h : close_ring r = some c) :
    ∀ p ∈ c, p ∈ r := by
  cases r with
  | nil => cases h
  | cons a t =>
    rw [close_ring] at h
    by_cases hc : ptEqb a ((a :: t).getLast (by simp)) = true
    · rw [if_pos hc] at h
      intro p hp
      rw [← Option.some.inj h] at hp
      exact hp
    · rw [if_neg hc] at h
      intro p hp
      rw [← Option.some.inj h] at hp
      rcases List.mem_append.mp hp with h2 | h2
      · exact h2
      · rw [List.mem_singleton.mp h2]
        exact List.mem_cons_self _ _

theorem classify_rings_good : ∀ (rings : List PtRing) (outs : List (List PtRing))
    (holes : List PtRing), classify_rings rings = some (outs, holes) →
    (∀ p ∈ outs, goodPoly p) ∧ (∀ x ∈ holes, is_clockwise x = false) ∧
    ((∀ r ∈ rings, ∀ p ∈ r, ptOk p) → ∀ x ∈ holes, ∀ p ∈ x, ptOk p)
  | [], outs, holes, h => by
    rw [classify_rings] at h
    obtain ⟨h1, h2⟩ := Prod.mk.injEq _ _ _ _ ▸ Option.some.inj h
    subst h1
    subst h2
    exact ⟨by simp, by simp, fun _ => by simp⟩
  | r :: rest, outs, holes, h => by
    rw [classify_rings] at h
    cases hcr : close_ring r with
    | none => rw [hcr] at h; cases h
    | some ring =>
      rw [hcr] at h
      cases hcl : classify_rings rest with
      | none => rw [hcl] at h; cases h
      | some p =>
        obtain ⟨o, hs⟩ := p
        rw [hcl] at h
        dsimp only at h
        obtain ⟨g1, g2, g3⟩ := classify_rings_good rest o hs hcl
        have hring_ok : (∀ x ∈ r :: rest, ∀ p ∈ x, ptOk p) → ∀ p ∈ ring, ptOk p :=
          fun hall p hp => hall r (List.mem_cons_self _ _) p (close_ring_subset r ring hcr p hp)
        have hrest_ok : (∀ x ∈ r :: rest, ∀ p ∈ x, ptOk p) →
            (∀ x ∈ rest, ∀ p ∈ x, ptOk p) :=
          fun hall x hx => hall x (List.mem_cons_of_mem _ hx)
        by_cases hlen : ring.length < 4
        · rw [if_pos hlen] at h
          obtain ⟨h1, h2⟩ := Prod.mk.injEq _ _ _ _ ▸ Option.some.inj h
          subst h1; subst h2
          exact ⟨g1, g2, fun hall => g3 (hrest_ok hall)⟩
        · rw [if_neg hlen] at h
          by_cases hcw : is_clockwise ring = true
          · rw [if_pos hcw] at h
            obtain ⟨h1, h2⟩ := Prod.mk.injEq _ _ _ _ ▸ Option.some.inj h
            subst h1; subst h2
            refine ⟨?_, g2, fun hall => g3 (hrest_ok hall)⟩
            intro p hp
            rcases List.mem_cons.mp hp with h2 | h2
            · exact ⟨ring, [], h2, hcw, by simp⟩
            · exact g1 p h2
          · rw [if_neg hcw] at h
            obtain ⟨h1, h2⟩ := Prod.mk.injEq _ _ _ _ ▸ Option.some.inj h
            subst h1; subst h2
            refine ⟨g1, ?_, ?_⟩
            · intro x hx
              rcases List.mem_cons.mp hx with h2 | h2
              · rw [h2]
                cases hb : is_clockwise ring
                · rfl
                · exact absurd hb hcw
              · exact g2 x h2
            · intro hall x hx
              rcases List.mem_cons.mp hx with h2 | h2
              · rw [h2]
                exact hring_ok hall
              · exact g3 (hrest_ok hall) x h2

theorem find_containing_mem : ∀ (outs : List (List PtRing)) (iter : List Nat)
    (hole : PtRing) (i : Nat) (rest : List Nat),
    find_containing outs iter hole = some (i, rest) →
    i ∈ iter ∧ ∀ j ∈ rest, j ∈ iter
  | _, [], _, _, _, h => by cases h
  | outs, k :: it, hole, i, rest, h => by
    rw [find_containing] at h
    by_cases hc : coordinates_contain_coordinates ((outs.getD k []).headD []) hole = true
    · rw [if_pos hc] at h
      obtain ⟨h1, h2⟩ := Prod.mk.injEq _ _ _ _ ▸ Option.some.inj h
      subst h1; subst h2
      exact ⟨List.mem_cons_self _ _, fun j hj => List.mem_cons_of_mem _ hj⟩
    · rw [if_neg hc] at h
      obtain ⟨h1, h2⟩ := find_containing_mem outs it hole i rest h
      exact ⟨List.mem_cons_of_mem _ h1, fun j hj => List.mem_cons_of_mem _ (h2 j hj)⟩

theorem assign_holes_inv : ∀ (hs : List PtRing) (outs : List (List PtRing))
    (iter : List Nat) (unc : List PtRing), (unc ≠ [] → iter = []) →
    ((assign_holes outs iter hs unc).2.2 ≠ [] → (assign_holes outs iter hs unc).2.1 = [])
  | [], outs, iter, unc, hinv => by
    rw [assign_holes]
    exact hinv
  | h :: hs, outs, iter, unc, hinv => by
    rw [assign_holes]
    cases hf : find_containing outs iter h with
    | some p =>
      obtain ⟨i, rest⟩ := p
      refine assign_holes_inv hs _ rest unc (fun hu => ?_)
      have hit := hinv hu
      rw [hit] at hf
      cases hf
    | none =>
      exact assign_holes_inv hs outs [] (unc ++ [h]) (fun _ => rfl)

theorem assign_holes_good : ∀ (hs : List PtRing) (outs : List (List PtRing))
    (iter : List Nat) (unc : List PtRing),
    (∀ p ∈ outs, goodPoly p) → (∀ x ∈ hs, is_clockwise x = false) →
    (∀ x ∈ unc, is_clockwise x = false) → (∀ i ∈ iter, i < outs.length) →
    (∀ x ∈ hs, ∀ p ∈ x, ptOk p) → (∀ x ∈ unc, ∀ p ∈ x, ptOk p) →
    (∀ p ∈ (assign_holes outs iter hs unc).1, goodPoly p) ∧
    (∀ x ∈ (assign_holes outs iter hs unc).2.2, is_clockwise x = false) ∧
    (∀ x ∈ (assign_holes outs iter hs unc).2.2, ∀ p ∈ x, ptOk p)
  | [], outs, iter, unc, hg, _, hu, _, _, huo => by
    rw [assign_holes]
    exact ⟨hg, hu, huo⟩
  | h :: hs, outs, iter, unc, hg, hh, hu, hb, hho, huo => by
    rw [assign_holes]
    have hh' : ∀ x ∈ hs, is_clockwise x = false :=
      fun x hx => hh x (List.mem_cons_of_mem _ hx)
    have hho' : ∀ x ∈ hs, ∀ p ∈ x, ptOk p :=
      fun x hx => hho x (List.mem_cons_of_mem _ hx)
    cases hf : find_containing outs iter h with
    | some p =>
      obtain ⟨i, rest⟩ := p
      obtain ⟨hi, hrest⟩ := find_containing_mem outs iter h i rest hf
      have hilt : i < outs.length := hb i hi
      have hgood : ∀ p ∈ outs.set i (outs.getD i [] ++ [h]), goodPoly p := by
        intro p hp
        rcases List.mem_or_eq_of_mem_set hp with h2 | h2
        · exact hg p h2
        · subst h2
          have hget : outs.getD i [] ∈ outs := by
            rw [List.getD_eq_getElem _ _ hilt]
            exact List.getElem_mem hilt
          obtain ⟨r, t, he, hcw, hht⟩ := hg _ hget
          refine ⟨r, t ++ [h], by rw [he]; rfl, hcw, ?_⟩
          intro x hx
          rcases List.mem_append.mp hx with h3 | h3
          · exact hht x h3
          · rw [List.mem_singleton.mp h3]
            exact hh h (List.mem_cons_self _ _)
      refine assign_holes_good hs _ rest unc hgood hh' hu ?_ hho' huo
      intro j hj
      rw [List.length_set]
      exact hb j (hrest j hj)
    | none =>
      refine assign_holes_good hs outs [] (unc ++ [h]) hg hh' ?_ (by simp) hho' ?_
      · intro x hx
        rcases List.mem_append.mp hx with h2 | h2
        · exact hu x h2
        · rw [List.mem_singleton.mp h2]
          exact hh h (List.mem_cons_self _ _)
      · intro x hx
        rcases List.mem_append.mp hx with h2 | h2
        · exact huo x h2
        · rw [List.mem_singleton.mp h2]
          exact hho h (List.mem_cons_self _ _)

theorem promote_holes_some : ∀ (hs : List PtRing) (outs : List (List PtRing)),
    ∃ r, promote_holes outs [] hs = some r
  | [], outs => ⟨outs, rfl⟩
  | h :: hs, outs => by
    rw [promote_holes]
    have hfi : find_intersecting outs [] h = false := rfl
    rw [hfi, if_neg (by simp)]
    exact promote_holes_some hs (outs ++ [[h.reverse]])

theorem promote_holes_good : ∀ (hs : List PtRing) (outs : List (List PtRing))
    (iter : List Nat) (res : List (List PtRing)),
    (∀ p ∈ outs, goodPoly p) → (∀ x ∈ hs, is_clockwise x = false) →
    (∀ x ∈ hs, ∀ p ∈ x, ptOk p) →
    promote_holes outs iter hs = some res → ∀ p ∈ res, goodPoly p
  | [], outs, iter, res, hg, _, _, h => by
    rw [promote_holes] at h
    rw [← Option.some.inj h]
    exact hg
  | h :: hs, outs, iter, res, hg, hh, hho, hp => by
    rw [promote_holes] at hp
    by_cases hfi : find_intersecting outs iter h = true
    · rw [if_pos hfi] at hp
      cases hp
    · rw [if_neg hfi] at hp
      refine promote_holes_good hs (outs ++ [[h.reverse]]) [] res ?_
        (fun x hx => hh x (List.mem_cons_of_mem _ hx))
        (fun x hx => hho x (List.mem_cons_of_mem _ hx)) hp
      intro p hp2
      rcases List.mem_append.mp hp2 with h2 | h2
      · exact hg p h2
      · rw [List.mem_singleton.mp h2]
        refine ⟨h.reverse, [], rfl, ?_, by simp⟩
        exact is_clockwise_reverse h (hho h (List.mem_cons_self _ _))
          (hh h (List.mem_cons_self _ _))

theorem classify_rings_total : ∀ (rings : List PtRing), (∀ r ∈ rings, r ≠ []) →
    ∃ p, classify_rings rings = some p
  | [], _ => ⟨([], []), rfl⟩
  | r :: rest, h => by
    obtain ⟨p, hp⟩ := classify_rings_total rest (fun x hx => h x (List.mem_cons_of_mem _ hx))
    obtain ⟨o, hs⟩ := p
    have hr : r ≠ [] := h r (List.mem_cons_self _ _)
    have hcr : ∃ c, close_ring r = some c := by
      cases r with
      | nil => exact absurd rfl hr
      | cons a t =>
        rw [close_ring]
        by_cases hc : ptEqb a ((a :: t).getLast (by simp)) = true
        · rw [if_pos hc]
          exact ⟨_, rfl⟩
        · rw [if_neg hc]
          exact ⟨_, rfl⟩
    obtain ⟨c, hc⟩ := hcr
    rw [classify_rings, hc, hp]
    dsimp only
    by_cases h1 : c.length < 4
    · rw [if_pos h1]
      exact ⟨_, rfl⟩
    · rw [if_neg h1]
      by_cases h2 : is_clockwise c = true
      · rw [if_pos h2]
        exact ⟨_, rfl⟩
      · rw [if_neg h2]
        exact ⟨_, rfl⟩

/-- C5 counterexample: both outer rings contain both holes, so the first
outer ring that contains `c5_hole_b` is `c5_outer_a` — yet `from_rings`
attaches `c5_hole_b` to `c5_outer_b`'s polygon and `c5_hole_a` to
`c5_outer_a`'s: the `reversed(outer_rings)` iterator is consumed across
holes (holes are popped last-first), so each hole resumes the scan where the
previous one stopped instead of restarting at the first outer ring. -/
theorem c5_hole_assignment_counterexample :
    from_rings [c5_outer_a, c5_outer_b, c5_hole_a, c5_hole_b] =
      some [[c5_outer_a, c5_hole_a], [c5_outer_b, c5_hole_b]] ∧
    coordinates_contain_coordinates c5_outer_a c5_hole_b = true ∧
    coordinates_contain_coordinates c5_outer_b c5_hole_b = true := by
  decide

/-- C5 as amended: `from_rings` classifies rings by signed-area sign, scans
outer rings in reverse order through an iterator shared across holes
(assigning each hole to the next containing outer ring of that ongoing scan),
and reverses any unmatched hole into its own outer ring; the
intersection fallback never fires (the shared iterator is always exhausted by
the time an uncontained hole exists), so no ring set whose rings each have at
least one point causes an error. -/
theorem c5_from_rings_no_error (rings : List PtRing) (h : ∀ r ∈ rings, r ≠ []) :
    ∃ polys, from_rings rings = some polys := by
  obtain ⟨p, hcl⟩ := classify_rings_total rings h
  obtain ⟨outs, holes⟩ := p
  rw [from_rings, hcl]
  dsimp only
  cases hu : (assign_holes outs (List.range outs.length).reverse holes.reverse []).2.2 with
  | nil =>
    exact ⟨_, rfl⟩
  | cons a l =>
    have hne : (assign_holes outs (List.range outs.length).reverse holes.reverse []).2.2
        ≠ [] := by
      rw [hu]
      simp
    have hiter : (assign_holes outs (List.range outs.length).reverse holes.reverse []).2.1
        = [] :=
      assign_holes_inv holes.reverse outs (List.range outs.length).reverse []
        (fun hc => absurd rfl hc) hne
    rw [hiter]
    exact promote_holes_some _ _

/-- Witness for C5 (amended theorem) at a single nonempty ring. -/
theorem c5_from_rings_no_error_witness :
    ∃ polys, from_rings [c5_outer_a] = some polys :=
  c5_from_rings_no_error [c5_outer_a] (by decide)

/-- C4 counterexample: composing `from_esri_feature` with `to_esri_feature`
does not reproduce the input.  (a) For a point, `from_esri_feature` emits
EWKT with an `SRID=...;` prefix, and `to_esri_feature` takes everything
before the first parenthesis as the geometry type, so no branch matches and
Python returns `None`.  (b) Even with the prefix stripped (as the database
read path does), a polygon of two outer rings round-trips to only the first
polygon: `to_esri_feature` keeps `_geom_repl()[0]`. -/
theorem c4_roundtrip_counterexample :
    ((from_esri_feature (.point ⟨1, 1⟩ ⟨2, 1⟩) "esriGeometryPoint" none).bind
      to_esri_feature) = none ∧
    (((from_esri_feature (.rings [c4_sq_a, c4_sq_b]) "esriGeometryPolygon" none).map
      strip_srid).bind to_esri_feature) = some (.rings [c4_sq_a]) ∧
    EsriGeom.rings [c4_sq_a] ≠ EsriGeom.rings [c4_sq_a, c4_sq_b] := by
  decide

/-- C4 as amended: with the `SRID=...;` prefix stripped (as when the geometry
passes through the database's `ST_AsText`), point and polyline geometries
round-trip exactly; a polygon round-trips to the first polygon of the
`from_rings` normalization; and in that normalization every outer ring is
clockwise and every hole counter-clockwise (for coordinates denoting
numbers). -/
theorem c4_roundtrip_amended :
    (∀ (x y : Rq) (wkid : Option Int),
      ((from_esri_feature (.point x y) "esriGeometryPoint" wkid).map strip_srid).bind
        to_esri_feature = some (.point x y)) ∧
    (∀ (ps : List (List Pt)) (wkid : Option Int),
      ((from_esri_feature (.paths ps) "esriGeometryPolyline" wkid).map strip_srid).bind
        to_esri_feature = some (.paths ps)) ∧
    (∀ (rs : List PtRing) (polys : List (List PtRing)) (wkid : Option Int),
      from_rings rs = some polys →
      ((from_esri_feature (.rings rs) "esriGeometryPolygon" wkid).map strip_srid).bind
        to_esri_feature = (polys.head?).map EsriGeom.rings) ∧
    (∀ (rs : List PtRing) (polys : List (List PtRing)),
      (∀ r ∈ rs, ∀ p ∈ r, ptOk p) → from_rings rs = some polys →
      ∀ poly ∈ polys, goodPoly poly) := by
  refine ⟨fun x y wkid => rfl, fun ps wkid => rfl, ?_, ?_⟩
  · intro rs polys wkid hfr
    rw [from_esri_feature]
    rw [if_neg (by decide), if_neg (by decide), if_pos rfl]
    rw [hfr]
    rfl
  · intro rs polys hall hfr
    rw [from_rings] at hfr
    cases hcl : classify_rings rs with
    | none =>
      rw [hcl] at hfr
      cases hfr
    | some p =>
      obtain ⟨outs, holes⟩ := p
      rw [hcl] at hfr
      dsimp only at hfr
      obtain ⟨g1, g2, g3⟩ := classify_rings_good rs outs holes hcl
      have hok := g3 hall
      have hb : ∀ i ∈ (List.range outs.length).reverse, i < outs.length := by
        intro i hi
        exact List.mem_range.mp (List.mem_reverse.mp hi)
      obtain ⟨a1, a2, a3⟩ := assign_holes_good holes.reverse outs
        (List.range outs.length).reverse []
        g1 (fun x hx => g2 x (List.mem_reverse.mp hx)) (by simp) hb
        (fun x hx => hok x (List.mem_reverse.mp hx)) (by simp)
      exact promote_holes_good _ _ _ polys a1
        (fun x hx => a2 x (List.mem_reverse.mp hx))
        (fun x hx => a3 x (List.mem_reverse.mp hx)) hfr

/-- Witness for C4 (amended theorem): a concrete point and a concrete
one-ring polygon. -/
theorem c4_roundtrip_amended_witness :
    ((from_esri_feature (.point ⟨3, 1⟩ ⟨4, 1⟩) "esriGeometryPoint" none).map
      strip_srid).bind to_esri_feature = some (.point ⟨3, 1⟩ ⟨4, 1⟩) ∧
    ((from_esri_feature (.rings [c4_sq_a]) "esriGeometryPolygon" none).map
      strip_srid).bind to_esri_feature =
      (([[c4_sq_a]] : List (List PtRing)).head?).map EsriGeom.rings ∧
    ∀ poly ∈ ([[c4_sq_a]] : List (List PtRing)), goodPoly poly :=
  ⟨c4_roundtrip_amended.1 ⟨3, 1⟩ ⟨4, 1⟩ none,
   c4_roundtrip_amended.2.2.1 [c4_sq_a] [[c4_sq_a]] none (by decide),
   c4_roundtrip_amended.2.2.2 [c4_sq_a] [[c4_sq_a]] (by decide) (by decide)⟩

end Tablo
